import Mathlib

/-!
Verification of the thermo library's cubic equation-of-state core (Peng-Robinson),
the Wilson activity-coefficient model, and the temperature-and-pressure-dependent
property-correlation framework, against their natural-language specification.

The Python sources are shallowly embedded:
* pure numeric kernels are Lean functions over `ℚ` (where the control flow and
  comparisons matter and everything is decidable) or over `ℝ`/`ℂ` (where the code
  uses transcendental functions `exp`, `log`, `sqrt`, `atanh` and complex powers);
* the stateful property-correlation registry is embedded as explicit state passing
  with `Except` for raised exceptions;
* helper routines that live in modules not part of the supplied source
  (`thermo.utils`: the phase-identification parameter and its phase convention,
  the `test_property_validity` / `calculate_P` triad of the correlation base class)
  are modelled from the specification and marked as such in their doc comments.
-/

namespace Thermo

/-- Molar gas constant, `R = 8.314462618 J/(mol*K)`, as fixed by the specification
and used uniformly by `thermo.eos` and `thermo.wilson`. -/
noncomputable def R : ℝ := 8.314462618

/-- Molar gas constant as a rational, for the computable `ℚ` models. -/
def Rq : ℚ := 8.314462618

/-! ## C1: the argument-validation guard of `PR.__init__` (src/thermo/eos.py lines 161-162)

The constructor's guard is `if not ([T and P] or [T and V] or [P and V])`.
Each disjunct is a Python *list literal* containing one element, and a non-empty
list is always truthy, so the guard can never fire.  We embed Python truthiness
of optional float arguments and of lists faithfully. -/

namespace EOSQ

/-- Python truthiness of an optional float constructor argument: `None` and `0.0`
are falsy, every other float is truthy. -/
def truthy (x : Option ℚ) : Bool :=
  match x with
  | Option.none => false
  | Option.some q => decide (q ≠ 0)

/-- Python `and` on optional-float values: returns the first operand when it is
falsy, otherwise the second operand. -/
def pyAnd (x y : Option ℚ) : Option ℚ := if truthy x then y else x

/-- Python truthiness of a list value: a list is truthy iff it is non-empty. -/
def truthyList (l : List (Option ℚ)) : Bool := !l.isEmpty

/-- The argument-validation guard of `PR.__init__`
(`not ([T and P] or [T and V] or [P and V])`, src/thermo/eos.py line 161):
`true` exactly when the constructor raises the invalid-input error
"Either T and P, or T and V, or P and V are required". Each disjunct of the
Python expression is a singleton list literal. -/
def PR_init_guard (T P V : Option ℚ) : Bool :=
  !(truthyList [pyAnd T P] || truthyList [pyAnd T V] || truthyList [pyAnd P V])

end EOSQ

/-! ## Property-correlation framework (src/thermo/utils/tp_dependent_property.py)

The registry state of a `TPDependentProperty` object, restricted to the fields
the claims are about. Property values are embedded as `ℚ`. The base-class triad
`calculate_P` / `test_method_validity_P` / `test_property_validity` is dynamic
dispatch in the source (`calculate_P` and `test_property_validity` are defined
by subclasses and the `TDependentProperty` base, which are not part of the
supplied source), so it is passed as a record of oracle functions. -/

namespace TPProp

/-- One registered tabular data set: `(Ts, Ps, properties)` as stored in
`tabular_data_P` by `add_tabular_data_P`. -/
structure TabEntry where
  Ts : List ℚ
  Ps : List ℚ
  props : List (List ℚ)
deriving DecidableEq, Repr

/-- Modelled from the spec: the `calculate`/`test_method_validity`/`test_property_validity`
triad of the (absent) `TDependentProperty` base class and its subclasses, observed
by `TPDependentProperty` only through calls. `calculate_P` may fault (a raised
exception during evaluation is `Except.error`). -/
structure Hooks where
  test_method_validity_P : ℚ → ℚ → String → Bool
  calculate_P : ℚ → ℚ → String → Except Unit ℚ
  test_property_validity : ℚ → Bool

/-- The mutable registry state of a `TPDependentProperty` object, restricted to
the fields touched by the claims: the set of pressure-dependent methods, the
pressure-dependent tabular data, the low-pressure tabular data names (whose count
feeds the auto-naming of `add_tabular_data_P`), the selected pressure-dependent
method, the last cached `(T, P)` evaluation key, and the
`RAISE_PROPERTY_CALCULATION_ERROR` policy flag. -/
structure Registry where
  all_methods_P : List String
  tabular_data_P : List (String × TabEntry)
  tabular_data : List String
  method_P : Option String
  TP_cached : Option (ℚ × ℚ)
  RAISE_PROPERTY_CALCULATION_ERROR : Bool
deriving DecidableEq, Repr

/-- Association-list lookup for the tabular-data dictionaries. -/
def assocLookup (l : List (String × TabEntry)) (k : String) : Option TabEntry :=
  match l with
  | [] => Option.none
  | (k', v') :: t => if k' = k then Option.some v' else assocLookup t k

/-- Association-list update, `self.tabular_data_P[name] = [Ts, Ps, properties]`. -/
def assocSet (l : List (String × TabEntry)) (k : String) (v : TabEntry) :
    List (String × TabEntry) :=
  match l with
  | [] => [(k, v)]
  | (k', v') :: t => if k' = k then (k, v) :: t else (k', v') :: assocSet t k v

/-- The `method_P` property setter (src/thermo/utils/tp_dependent_property.py
lines 177-182): raises when the assigned method is neither `None` nor a member
of `all_methods_P`; otherwise clears `TP_cached` and stores the method. -/
def method_P_set (r : Registry) (m : Option String) : Except String Registry :=
  if (match m with
      | Option.some s => !(r.all_methods_P.contains s)
      | Option.none => false) then
    Except.error "The given methods is not available for this chemical"
  else
    Except.ok { r with TP_cached := Option.none, method_P := m }

/-- `TP_dependent_property(T, P)` (src/thermo/utils/tp_dependent_property.py
lines 250-288). `Except.ok (some x)` is a returned property value,
`Except.ok none` is Python's implicit `return None` fall-through, and
`Except.error` is a raised `RuntimeError`. -/
def TP_dependent_property (h : Hooks) (r : Registry) (T P : ℚ) :
    Except String (Option ℚ) :=
  match r.method_P with
  | Option.none =>
      if r.RAISE_PROPERTY_CALCULATION_ERROR then
        Except.error "No pressure-dependent method selected"
      else
        Except.ok Option.none
  | Option.some m =>
      if h.test_method_validity_P T P m then
        match h.calculate_P T P m with
        | Except.error _ =>
            if r.RAISE_PROPERTY_CALCULATION_ERROR then
              Except.error "Failed to evaluate method"
            else
              Except.ok Option.none
        | Except.ok prop =>
            if h.test_property_validity prop then
              Except.ok (Option.some prop)
            else if r.RAISE_PROPERTY_CALCULATION_ERROR then
              Except.error "computed an invalid value"
            else
              Except.ok Option.none
      else if r.RAISE_PROPERTY_CALCULATION_ERROR then
        Except.error "not valid at T and P"
      else
        Except.ok Option.none

/-- Whether a call outcome is a raised error. -/
def isError (x : Except String (Option ℚ)) : Bool :=
  match x with
  | Except.error _ => true
  | Except.ok _ => false

/-- The strictly-increasing test `all(b > a for a, b in zip(l, l[1:]))`. -/
def strictIncr (l : List ℚ) : Bool :=
  (l.zip l.tail).all fun p => decide (p.1 < p.2)

/-- The name under which `add_tabular_data_P` stores a data set: the provided
name, or `'Tabular data series #' + str(len(self.tabular_data))` when none is
given. -/
def tabName (r : Registry) (name : Option String) : String :=
  match name with
  | Option.some s => s
  | Option.none => "Tabular data series #" ++ toString r.tabular_data.length

/-- `add_tabular_data_P(Ts, Ps, properties, name, check_properties)`
(src/thermo/utils/tp_dependent_property.py lines 342-382): optionally validates
every property value, requires `Ts` and `Ps` strictly increasing, stores the data
under the (possibly auto-generated) name, adds the name to `all_methods_P` and
selects it via the `method_P` setter. -/
def add_tabular_data_P (h : Hooks) (r : Registry) (Ts Ps : List ℚ)
    (properties : List (List ℚ)) (name : Option String) (check_properties : Bool) :
    Except String Registry :=
  if check_properties && properties.flatten.any (fun p => !(h.test_property_validity p)) then
    Except.error "One of the properties specified are not feasible"
  else if !(strictIncr Ts) then
    Except.error "Temperatures are not sorted in increasing order"
  else if !(strictIncr Ps) then
    Except.error "Pressures are not sorted in increasing order"
  else
    let nm := tabName r name
    let r1 : Registry := { r with
      tabular_data_P := assocSet r.tabular_data_P nm ⟨Ts, Ps, properties⟩,
      all_methods_P := if r.all_methods_P.contains nm then r.all_methods_P
                       else nm :: r.all_methods_P }
    method_P_set r1 (Option.some nm)

end TPProp

/-- Phase label, `'l'` (liquid-like) or `'g'` (vapor-like). -/
inductive Phase
  | l
  | g
deriving DecidableEq, Repr

/-! ## C2: `CUBIC_EOS.set_from_PT` (src/thermo/eos.py lines 65-79), computable `ℚ` model

The candidate volume roots are complex numbers; we embed them as pairs of
rationals so that the branching (`abs(i.imag) > 1E-9`, `i.imag == 0`,
`min`/`max`) is decidable. Only the phase label computed by
`set_derivs_from_phase` influences which attribute family is assigned, so the
`ℚ` model carries the phase computation (first and second P-V-T derivatives and
the PIP criterion) and the selected roots; the transcendental departure
quantities computed alongside do not affect the control flow. -/

namespace EOSQ

/-- A complex candidate volume root, as real and imaginary rational parts. -/
structure Cplx where
  re : ℚ
  im : ℚ
deriving DecidableEq, Repr

/-- `dP_dT` of `CUBIC_EOS.first_derivatives` (src/thermo/eos.py line 42). -/
def dP_dT (V b da_alpha_dT : ℚ) : ℚ :=
  Rq/(V - b) - da_alpha_dT/(V*(V + b) + b*(V - b))

/-- `dP_dV` of `CUBIC_EOS.first_derivatives` (src/thermo/eos.py line 43). -/
def dP_dV (T V b a_alpha : ℚ) : ℚ :=
  -Rq*T/(V - b)^2 - (-2*V - 2*b)*a_alpha/(V*(V + b) + b*(V - b))^2

/-- `d2P_dV2` of `CUBIC_EOS.second_derivatives` (src/thermo/eos.py line 52). -/
def d2P_dV2 (T V b a_alpha : ℚ) : ℚ :=
  2*Rq*T/(V - b)^3 - (-4*V - 4*b)*(-2*V - 2*b)*a_alpha/(V*(V + b) + b*(V - b))^3
    + 2*a_alpha/(V*(V + b) + b*(V - b))^2

/-- `d2P_dTdV` of `CUBIC_EOS.second_derivatives_mixed` (src/thermo/eos.py line 61). -/
def d2P_dTdV (V b da_alpha_dT : ℚ) : ℚ :=
  -Rq/(V - b)^2 - (-2*V - 2*b)*da_alpha_dT/(V*(V + b) + b*(V - b))^2

/-- Modelled from the spec: `phase_identification_parameter` lives in
`thermo.utils`, which is not part of the supplied source.  The spec (4.1 and
glossary) fixes it as the dimensionless phase-identification parameter computed
from the first and mixed second P-V-T derivatives; this is its standard
definition. -/
def phase_identification_parameter (V dP_dT dP_dV d2P_dV2 d2P_dTdV : ℚ) : ℚ :=
  V*(d2P_dTdV/dP_dT - d2P_dV2/dP_dV)

/-- Modelled from the spec (4.1): `phase_identification_parameter_phase` from
`thermo.utils` (not in the supplied source): PIP > 1 indicates a liquid-like
root, PIP <= 1 a vapor-like root. -/
def phase_identification_parameter_phase (PIP : ℚ) : Phase :=
  if 1 < PIP then Phase.l else Phase.g

/-- The phase label computed and returned by `CUBIC_EOS.set_derivs_from_phase`
(src/thermo/eos.py lines 81-92): the PIP of the root, classified by the PIP
criterion. -/
def set_derivs_phase (T V b a_alpha da_alpha_dT : ℚ) : Phase :=
  phase_identification_parameter_phase
    (phase_identification_parameter V (dP_dT V b da_alpha_dT)
      (dP_dV T V b a_alpha) (d2P_dV2 T V b a_alpha) (d2P_dTdV V b da_alpha_dT))

/-- Outcome of `set_from_PT`: which phase attributes were assigned. `single`:
one real root stored under the PIP-classified phase; `twoPhase`: `Vl` and `Vg`
both stored, each with a derivative bundle. -/
inductive SetPTOutcome
  | single (phase : Phase) (V : ℚ)
  | twoPhase (Vl Vg : ℚ)
deriving DecidableEq, Repr

/-- Value of Python `min` over a non-empty list of real-valued roots. -/
def minRe (v : Cplx) (l : List Cplx) : ℚ :=
  l.foldl (fun acc x => if x.re < acc then x.re else acc) v.re

/-- Value of Python `max` over a non-empty list of real-valued roots. -/
def maxRe (v : Cplx) (l : List Cplx) : ℚ :=
  l.foldl (fun acc x => if acc < x.re then x.re else acc) v.re

/-- `CUBIC_EOS.set_from_PT` (src/thermo/eos.py lines 65-79).  Counts the roots
whose imaginary part exceeds `1E-9` in magnitude; on two such roots selects the
first root with imaginary part exactly zero (Python `[i for i in Vs if i.imag
== 0][0]`, an `IndexError` when there is none) and classifies it; on one such
root stores the `min`/`max` of the roots with imaginary part exactly zero (a
`ValueError` when there is none); otherwise raises
`'Three roots not possible'`. -/
def set_from_PT (T P : ℚ) (Vs : List Cplx) (b a_alpha da_alpha_dT d2a_alpha_dT2 : ℚ) :
    Except String SetPTOutcome :=
  let i_roots := (Vs.filter fun i => decide ((1:ℚ)/1000000000 < |i.im|)).length
  if i_roots = 2 then
    match Vs.filter (fun i => decide (i.im = 0)) with
    | [] => Except.error "IndexError: list index out of range"
    | v :: _ =>
        Except.ok (SetPTOutcome.single (set_derivs_phase T v.re b a_alpha da_alpha_dT) v.re)
  else if i_roots = 1 then
    match Vs.filter (fun i => decide (i.im = 0)) with
    | [] => Except.error "ValueError: min() arg is an empty sequence"
    | v :: rest => Except.ok (SetPTOutcome.twoPhase (minRe v rest) (maxRe v rest))
  else
    Except.error "Three roots not possible"

end EOSQ

/-! ## The Peng-Robinson equation of state over `ℝ`/`ℂ` (src/thermo/eos.py)

Real-arithmetic embedding of `PR.__init__`/`CUBIC_EOS` for the departure-bundle
claim (C6) and the round-trip claim (C3).  `sqrt`/`log`/`exp` are the real
functions; the complex square root and the `x**(1/3)` cube root used by the
closed-form cubic solution `all_V` are the principal complex powers. -/

namespace EOSR

/-- `cmath.atanh(x).real` for a real argument `x`: the real part of the
principal complex inverse hyperbolic tangent. -/
noncomputable def catanh_re (x : ℝ) : ℝ := Real.log |(1 + x)/(1 - x)| / 2

/-- `dP_dT` of `CUBIC_EOS.first_derivatives` (src/thermo/eos.py line 42). -/
noncomputable def dP_dT (V b da_alpha_dT : ℝ) : ℝ :=
  R/(V - b) - da_alpha_dT/(V*(V + b) + b*(V - b))

/-- `dP_dV` of `CUBIC_EOS.first_derivatives` (src/thermo/eos.py line 43). -/
noncomputable def dP_dV (T V b a_alpha : ℝ) : ℝ :=
  -R*T/(V - b)^2 - (-2*V - 2*b)*a_alpha/(V*(V + b) + b*(V - b))^2

/-- `dV_dT` of `CUBIC_EOS.first_derivatives` (src/thermo/eos.py line 44). -/
noncomputable def dV_dT (T V b a_alpha da_alpha_dT : ℝ) : ℝ :=
  -(dP_dT V b da_alpha_dT)/(dP_dV T V b a_alpha)

/-- `dV_dP` of `CUBIC_EOS.first_derivatives` (src/thermo/eos.py line 45). -/
noncomputable def dV_dP (T V b a_alpha da_alpha_dT : ℝ) : ℝ :=
  -(dV_dT T V b a_alpha da_alpha_dT)/(dP_dT V b da_alpha_dT)

/-- `d2P_dT2` of `CUBIC_EOS.second_derivatives` (src/thermo/eos.py line 51). -/
noncomputable def d2P_dT2 (V b d2a_alpha_dT2 : ℝ) : ℝ :=
  -d2a_alpha_dT2/(V*(V + b) + b*(V - b))

/-- `d2P_dV2` of `CUBIC_EOS.second_derivatives` (src/thermo/eos.py line 52). -/
noncomputable def d2P_dV2 (T V b a_alpha : ℝ) : ℝ :=
  2*R*T/(V - b)^3 - (-4*V - 4*b)*(-2*V - 2*b)*a_alpha/(V*(V + b) + b*(V - b))^3
    + 2*a_alpha/(V*(V + b) + b*(V - b))^2

/-- `d2P_dTdV` of `CUBIC_EOS.second_derivatives_mixed` (src/thermo/eos.py line 61). -/
noncomputable def d2P_dTdV (V b da_alpha_dT : ℝ) : ℝ :=
  -R/(V - b)^2 - (-2*V - 2*b)*da_alpha_dT/(V*(V + b) + b*(V - b))^2

/-- Modelled from the spec (4.1): `_isobaric_expansion` from `thermo.utils`
(not in the supplied source): beta = (1/V)(dV/dT). -/
noncomputable def isobaric_expansion (V dV_dT : ℝ) : ℝ := dV_dT/V

/-- Modelled from the spec (4.1): `isothermal_compressibility` from
`thermo.utils` (not in the supplied source): kappa = -(1/V)(dV/dP). -/
noncomputable def isothermal_compressibility (V dV_dP : ℝ) : ℝ := -dV_dP/V

/-- Modelled from the spec (4.1): `Cp_minus_Cv` from `thermo.utils` (not in the
supplied source): Cp - Cv = -T*(dP/dT)^2/(dP/dV), applied to the arguments the
source passes at src/thermo/eos.py line 89. -/
noncomputable def Cp_minus_Cv (T x dP_dV : ℝ) : ℝ := -T*x^2/dP_dV

/-- Modelled from the spec (4.1 and glossary): `phase_identification_parameter`
from `thermo.utils` (not in the supplied source); the standard PIP computed
from the first and mixed second P-V-T derivatives. -/
noncomputable def phase_identification_parameter (V dP_dT dP_dV d2P_dV2 d2P_dTdV : ℝ) : ℝ :=
  V*(d2P_dTdV/dP_dT - d2P_dV2/dP_dV)

/-- Modelled from the spec (4.1): PIP > 1 is liquid-like, PIP <= 1 vapor-like. -/
noncomputable def phase_identification_parameter_phase (PIP : ℝ) : Phase :=
  if 1 < PIP then Phase.l else Phase.g

/-- The per-root attribute bundle assigned by `CUBIC_EOS.set_derivs_from_phase`
(src/thermo/eos.py lines 81-133), restricted to the scalar quantities the
claims reference. -/
structure Bundle where
  beta : ℝ
  kappa : ℝ
  Cp_m_Cv : ℝ
  PIP : ℝ
  phase : Phase
  H_dep : ℝ
  S_dep : ℝ
  V_dep : ℝ
  U_dep : ℝ
  G_dep : ℝ
  A_dep : ℝ
  fugacity : ℝ
  phi : ℝ

/-- `CUBIC_EOS.set_derivs_from_phase` (src/thermo/eos.py lines 81-101): the
derived quantities computed for one real root `V`.  The `let` bindings mirror
the source lines in order. -/
noncomputable def set_derivs_from_phase (T P V b a_alpha da_alpha_dT d2a_alpha_dT2 : ℝ) :
    Bundle :=
  let beta := isobaric_expansion V (dV_dT T V b a_alpha da_alpha_dT)
  let kappa := isothermal_compressibility V (dV_dP T V b a_alpha da_alpha_dT)
  let Cp_m_Cv := Cp_minus_Cv T (d2P_dT2 V b d2a_alpha_dT2) (dP_dV T V b a_alpha)
  let PIP := phase_identification_parameter V (dP_dT V b da_alpha_dT)
      (dP_dV T V b a_alpha) (d2P_dV2 T V b a_alpha) (d2P_dTdV V b da_alpha_dT)
  let phase := phase_identification_parameter_phase PIP
  let H_dep := P*V - R*T
      + Real.sqrt 2*catanh_re ((V + b)*Real.sqrt 2/b/2)*(da_alpha_dT*T - a_alpha)/b/2
  let S_dep := R*Real.log (P*V/(R*T))
      + (da_alpha_dT*Real.sqrt 2*catanh_re ((V + b)*Real.sqrt 2/b/2)
         - 2*R*b*(Real.log V - Real.log (V - b)))/b/2
  let V_dep := V - R*T/P
  let U_dep := H_dep - P*V_dep
  let G_dep := H_dep - T*S_dep
  let A_dep := U_dep - T*S_dep
  let fugacity := P*Real.exp (G_dep/(R*T))
  let phi := fugacity/P
  ⟨beta, kappa, Cp_m_Cv, PIP, phase, H_dep, S_dep, V_dep, U_dep, G_dep, A_dep, fugacity, phi⟩

/-- Constant part of `a` (`PR.c1`, src/thermo/eos.py line 140). -/
noncomputable def c1 : ℝ := 0.4572355289213821893834601962251837888504

/-- Constant part of `b` (`PR.c2`, src/thermo/eos.py line 143). -/
noncomputable def c2 : ℝ := 0.0777960739038884559718447100373331839711

/-- `self.a = self.c1*R**2*Tc**2/Pc` (src/thermo/eos.py line 157). -/
noncomputable def aPR (Tc Pc : ℝ) : ℝ := c1*R^2*Tc^2/Pc

/-- `self.b = self.c2*R*Tc/Pc` (src/thermo/eos.py line 158). -/
noncomputable def bPR (Tc Pc : ℝ) : ℝ := c2*R*Tc/Pc

/-- `self.kappa = 0.37464 + 1.54226*omega - 0.26992*omega**2`
(src/thermo/eos.py line 159). -/
noncomputable def kappaPR (omega : ℝ) : ℝ := 0.37464 + 1.54226*omega - 0.26992*omega^2

/-- `PR.set_a_alpha`: `self.a_alpha = self.a*(1 + self.kappa*(1-(T/self.Tc)**0.5))**2`
(src/thermo/eos.py line 146). -/
noncomputable def a_alphaPR (Tc Pc omega T : ℝ) : ℝ :=
  aPR Tc Pc*(1 + kappaPR omega*(1 - Real.sqrt (T/Tc)))^2

/-- The explicit pressure solution `P = R*T/(V-b) - a_alpha/(V*(V+b)+b*(V-b))`
used by `PR.__init__` when `T` and `V` are given (src/thermo/eos.py line 171). -/
noncomputable def P_from_TV (T V b a_alpha : ℝ) : ℝ :=
  R*T/(V - b) - a_alpha/(V*(V + b) + b*(V - b))

/-- The closed-form temperature solution of `PR.__init__` when `P` and `V` are
given (src/thermo/eos.py line 167), transcribed verbatim. -/
noncomputable def T_from_PV (Tc a b kappa P V : ℝ) : ℝ :=
  Tc*(-2*a*kappa*Real.sqrt ((V - b)^3*(V^2 + 2*V*b - b^2)*(P*R*Tc*V^2 + 2*P*R*Tc*V*b
    - P*R*Tc*b^2 - P*V*a*kappa^2 + P*a*b*kappa^2 + R*Tc*a*kappa^2 + 2*R*Tc*a*kappa
    + R*Tc*a))*(kappa + 1)*(R*Tc*V^2 + 2*R*Tc*V*b - R*Tc*b^2 - V*a*kappa^2
    + a*b*kappa^2)^2 + (V - b)*(R^2*Tc^2*V^4 + 4*R^2*Tc^2*V^3*b + 2*R^2*Tc^2*V^2*b^2
    - 4*R^2*Tc^2*V*b^3 + R^2*Tc^2*b^4 - 2*R*Tc*V^3*a*kappa^2 - 2*R*Tc*V^2*a*b*kappa^2
    + 6*R*Tc*V*a*b^2*kappa^2 - 2*R*Tc*a*b^3*kappa^2 + V^2*a^2*kappa^4
    - 2*V*a^2*b*kappa^4 + a^2*b^2*kappa^4)*(P*R*Tc*V^4 + 4*P*R*Tc*V^3*b
    + 2*P*R*Tc*V^2*b^2 - 4*P*R*Tc*V*b^3 + P*R*Tc*b^4 - P*V^3*a*kappa^2
    - P*V^2*a*b*kappa^2 + 3*P*V*a*b^2*kappa^2 - P*a*b^3*kappa^2 + R*Tc*V^2*a*kappa^2
    + 2*R*Tc*V^2*a*kappa + R*Tc*V^2*a + 2*R*Tc*V*a*b*kappa^2 + 4*R*Tc*V*a*b*kappa
    + 2*R*Tc*V*a*b - R*Tc*a*b^2*kappa^2 - 2*R*Tc*a*b^2*kappa - R*Tc*a*b^2
    + V*a^2*kappa^4 + 2*V*a^2*kappa^3 + V*a^2*kappa^2 - a^2*b*kappa^4
    - 2*a^2*b*kappa^3 - a^2*b*kappa^2))/((R*Tc*V^2 + 2*R*Tc*V*b - R*Tc*b^2
    - V*a*kappa^2 + a*b*kappa^2)^2*(R^2*Tc^2*V^4 + 4*R^2*Tc^2*V^3*b
    + 2*R^2*Tc^2*V^2*b^2 - 4*R^2*Tc^2*V*b^3 + R^2*Tc^2*b^4 - 2*R*Tc*V^3*a*kappa^2
    - 2*R*Tc*V^2*a*b*kappa^2 + 6*R*Tc*V*a*b^2*kappa^2 - 2*R*Tc*a*b^3*kappa^2
    + V^2*a^2*kappa^4 - 2*V*a^2*b*kappa^4 + a^2*b^2*kappa^4))

/-- The molar gas constant as a complex number, for `all_V`. -/
noncomputable def Rc : ℂ := (R : ℝ)

/-- The principal complex square root (the `sqrt` helper applied to a possibly
negative discriminant inside `all_V`). -/
noncomputable def csqrt (z : ℂ) : ℂ := z ^ ((1 : ℂ)/2)

/-- The principal complex cube root, Python's `x**(1/3)`. -/
noncomputable def cbrt (z : ℂ) : ℂ := z ^ ((1 : ℂ)/3)

/-- `sqrt(3)*1j` as it appears in `all_V` (src/thermo/eos.py lines 38-39). -/
noncomputable def SQ3I : ℂ := csqrt 3 * Complex.I

/-- The shared subterm `-3*(-3*P*b**2 - 2*R*T*b + a_alpha)/P + (P*b - R*T)**2/P**2`
of `CUBIC_EOS.all_V` (src/thermo/eos.py lines 37-39). -/
noncomputable def allV_Q (T P b a_alpha : ℂ) : ℂ :=
  -3*(-3*P*b^2 - 2*Rc*T*b + a_alpha)/P + (P*b - Rc*T)^2/P^2

/-- The shared subterm
`27*(P*b**3 + R*T*b**2 - b*a_alpha)/P - 9*(P*b - R*T)*(-3*P*b**2 - 2*R*T*b + a_alpha)/P**2 + 2*(P*b - R*T)**3/P**3`
of `CUBIC_EOS.all_V` (src/thermo/eos.py lines 37-39); the source writes its
half `allV_S/2` with the three summands halved individually. -/
noncomputable def allV_S (T P b a_alpha : ℂ) : ℂ :=
  27*(P*b^3 + Rc*T*b^2 - b*a_alpha)/P
    - 9*(P*b - Rc*T)*(-3*P*b^2 - 2*Rc*T*b + a_alpha)/P^2 + 2*(P*b - Rc*T)^3/P^3

/-- The shared cube-root subterm
`(sqrt(-4*allV_Q**3 + allV_S**2)/2 + allV_S/2)**(1/3)` of `CUBIC_EOS.all_V`
(src/thermo/eos.py lines 37-39). -/
noncomputable def allV_C (T P b a_alpha : ℂ) : ℂ :=
  cbrt (csqrt (-4*(allV_Q T P b a_alpha)^3 + (allV_S T P b a_alpha)^2)/2
    + (allV_S T P b a_alpha)/2)

/-- One root of `CUBIC_EOS.all_V`, with `u` the cube root of unity attached to
the cube-root subterm: `-allV_Q/(3*u*allV_C) - u*allV_C/3 - (P*b - R*T)/(3*P)`. -/
noncomputable def allV_root (T P b a_alpha u : ℂ) : ℂ :=
  -(allV_Q T P b a_alpha)/(3*u*(allV_C T P b a_alpha))
    - u*(allV_C T P b a_alpha)/3 - (P*b - Rc*T)/(3*P)

/-- `CUBIC_EOS.all_V` (src/thermo/eos.py lines 36-39): the three closed-form
(Cardano) roots of the cubic, with `u = 1`, `-1/2 - sqrt(3)*1j/2`,
`-1/2 + sqrt(3)*1j/2`. -/
noncomputable def all_V (T P b a_alpha : ℂ) : List ℂ :=
  [allV_root T P b a_alpha 1,
   allV_root T P b a_alpha (-1/2 - SQ3I/2),
   allV_root T P b a_alpha (-1/2 + SQ3I/2)]

/-- The subterm `R*Tc*V**2 + 2*R*Tc*V*b - R*Tc*b**2 - V*a*kappa**2 + a*b*kappa**2`
of `T_from_PV` (src/thermo/eos.py line 167); it appears squared in both the
numerator and the denominator, and the denominator's long second factor is its
square. -/
noncomputable def TPV_W (Tc a b kappa V : ℝ) : ℝ :=
  R*Tc*V^2 + 2*R*Tc*V*b - R*Tc*b^2 - V*a*kappa^2 + a*b*kappa^2

/-- The argument of the square root inside `T_from_PV`
(src/thermo/eos.py line 167). -/
noncomputable def TPV_arg (Tc a b kappa P V : ℝ) : ℝ :=
  (V - b)^3*(V^2 + 2*V*b - b^2)*(P*R*Tc*V^2 + 2*P*R*Tc*V*b - P*R*Tc*b^2
    - P*V*a*kappa^2 + P*a*b*kappa^2 + R*Tc*a*kappa^2 + 2*R*Tc*a*kappa + R*Tc*a)

/-- The third polynomial factor of the numerator of `T_from_PV`
(src/thermo/eos.py line 167). -/
noncomputable def TPV_Q2 (Tc a b kappa P V : ℝ) : ℝ :=
  P*R*Tc*V^4 + 4*P*R*Tc*V^3*b + 2*P*R*Tc*V^2*b^2 - 4*P*R*Tc*V*b^3 + P*R*Tc*b^4
    - P*V^3*a*kappa^2 - P*V^2*a*b*kappa^2 + 3*P*V*a*b^2*kappa^2 - P*a*b^3*kappa^2
    + R*Tc*V^2*a*kappa^2 + 2*R*Tc*V^2*a*kappa + R*Tc*V^2*a + 2*R*Tc*V*a*b*kappa^2
    + 4*R*Tc*V*a*b*kappa + 2*R*Tc*V*a*b - R*Tc*a*b^2*kappa^2 - 2*R*Tc*a*b^2*kappa
    - R*Tc*a*b^2 + V*a^2*kappa^4 + 2*V*a^2*kappa^3 + V*a^2*kappa^2 - a^2*b*kappa^4
    - 2*a^2*b*kappa^3 - a^2*b*kappa^2

/-- The reduced-temperature square root `sqrt(T/Tc)` produced by the
`T_from_PV` branch, written directly in terms of the closed form: the positive
quadratic root `s` with `T = Tc*s^2`. -/
noncomputable def TPV_s (Tc a b kappa P V : ℝ) : ℝ :=
  (Real.sqrt (TPV_arg Tc a b kappa P V) - a*kappa*(1 + kappa)*(V - b)^2)
    /(TPV_W Tc a b kappa V*(V - b))

/-- `allV_Q` over the reals (the same subterm of `CUBIC_EOS.all_V` before
coercion to `ℂ`). -/
noncomputable def allV_Q_real (T P b a_alpha : ℝ) : ℝ :=
  -3*(-3*P*b^2 - 2*R*T*b + a_alpha)/P + (P*b - R*T)^2/P^2

/-- `allV_S` over the reals (the same subterm of `CUBIC_EOS.all_V` before
coercion to `ℂ`). -/
noncomputable def allV_S_real (T P b a_alpha : ℝ) : ℝ :=
  27*(P*b^3 + R*T*b^2 - b*a_alpha)/P
    - 9*(P*b - R*T)*(-3*P*b^2 - 2*R*T*b + a_alpha)/P^2 + 2*(P*b - R*T)^3/P^3

end EOSR

/-! ## The Wilson activity model (src/thermo/wilson.py)

A model state owns the temperature, the composition vector and the six
per-ordered-pair coefficient matrices `A..F` (`ABCDEF` construction path).
Components are indexed by `Fin N`; the source's list-of-list row sums become
`Finset.univ` sums. -/

namespace WilsonM

/-- The state of a `Wilson` object: temperature `T`, composition `xs` and
coefficient matrices `lambda_coeffs_A` .. `lambda_coeffs_F`
(src/thermo/wilson.py lines 32-56). -/
structure State (N : ℕ) where
  T : ℝ
  xs : Fin N → ℝ
  A : Fin N → Fin N → ℝ
  B : Fin N → Fin N → ℝ
  C : Fin N → Fin N → ℝ
  D : Fin N → Fin N → ℝ
  E : Fin N → Fin N → ℝ
  F : Fin N → Fin N → ℝ

variable {N : ℕ}

/-- `Wilson.lambdas` (src/thermo/wilson.py lines 58-102):
`exp(A[i][j] + B[i][j]*Tinv + C[i][j]*logT + D[i][j]*T + E[i][j]*T2inv + F[i][j]*T2)`
with `Tinv = 1/T`, `T2inv = Tinv*Tinv`, `T2 = T*T`. -/
noncomputable def lambdas (s : State N) (i j : Fin N) : ℝ :=
  Real.exp (s.A i j + s.B i j*(1/s.T) + s.C i j*Real.log s.T + s.D i j*s.T
    + s.E i j*((1/s.T)*(1/s.T)) + s.F i j*(s.T*s.T))

/-- `Wilson.xj_Lambda_ijs` (src/thermo/wilson.py lines 264-281): the
composition-weighted row sums of the interaction matrix. -/
noncomputable def xj_Lambda_ijs (s : State N) (i : Fin N) : ℝ :=
  ∑ j, s.xs j * lambdas s i j

/-- `Wilson.xj_Lambda_ijs_inv` (src/thermo/wilson.py lines 283-294). -/
noncomputable def xj_Lambda_ijs_inv (s : State N) (i : Fin N) : ℝ :=
  1/xj_Lambda_ijs s i

/-- `Wilson.GE` (src/thermo/wilson.py lines 355-371):
`GE = -(sum_i x_i * log(sum_j x_j*Lambda_ij))*R*T`. -/
noncomputable def GE (s : State N) : ℝ :=
  -(∑ i, s.xs i * Real.log (∑ j, s.xs j * lambdas s i j))*R*s.T

/-- `Wilson.gammas` (src/thermo/wilson.py lines 704-726):
`gammas[i] = exp(1 - sum_j Lambda[j][i]*(x_j*inv_j)) * inv_i`. -/
noncomputable def gammas (s : State N) (i : Fin N) : ℝ :=
  Real.exp (1 - ∑ j, lambdas s j i*(s.xs j*xj_Lambda_ijs_inv s j))
    * xj_Lambda_ijs_inv s i

/-- `Wilson.d2GE_dxixjs` (src/thermo/wilson.py lines 624-656): the composition
Hessian of the excess Gibbs energy,
`RT*(sum_i x_i*Lambda_ik*Lambda_im/S_i^2 - Lambda_km/S_k - Lambda_mk/S_m)`. -/
noncomputable def d2GE_dxixjs (s : State N) (k m : Fin N) : ℝ :=
  R*s.T*((∑ i, s.xs i*lambdas s i k*lambdas s i m
      /(xj_Lambda_ijs s i*xj_Lambda_ijs s i))
    - lambdas s k m/xj_Lambda_ijs s k
    - lambdas s m k/xj_Lambda_ijs s m)

/-- `Wilson.d3GE_dxixjxks` (src/thermo/wilson.py lines 658-701): the third
composition derivative tensor,
`-RT*(sum_i 2*x_i*Lambda_ik*Lambda_im*Lambda_in*inv_i^3
  - Lambda_km*Lambda_kn*inv_k^2 - Lambda_mk*Lambda_mn*inv_m^2
  - Lambda_nm*Lambda_nk*inv_n^2)`. -/
noncomputable def d3GE_dxixjxks (s : State N) (k m n : Fin N) : ℝ :=
  -(R*s.T)*((∑ i, (2*s.xs i*lambdas s i k*lambdas s i m*lambdas s i n)
      *(xj_Lambda_ijs_inv s i*xj_Lambda_ijs_inv s i*xj_Lambda_ijs_inv s i))
    - lambdas s k m*lambdas s k n*(xj_Lambda_ijs_inv s k*xj_Lambda_ijs_inv s k)
    - lambdas s m k*lambdas s m n*(xj_Lambda_ijs_inv s m*xj_Lambda_ijs_inv s m)
    - lambdas s n m*lambdas s n k*(xj_Lambda_ijs_inv s n*xj_Lambda_ijs_inv s n))

end WilsonM

/-! ## Concrete fixtures for counterexamples and witnesses -/

/-- Hooks whose validity test rejects every computed value (the method itself is
always valid and evaluation succeeds with value 5). -/
def C7hooks : TPProp.Hooks :=
  ⟨fun _ _ _ => true, fun _ _ _ => Except.ok 5, fun _ => false⟩

/-- Hooks that accept every computed value. -/
def C7hooksOK : TPProp.Hooks :=
  ⟨fun _ _ _ => true, fun _ _ _ => Except.ok 5, fun _ => true⟩

/-- A registry with one pressure-dependent method `"M"` selected and the
raise-on-calculation-error policy disabled. -/
def C7reg : TPProp.Registry :=
  ⟨["M"], [], [], Option.some "M", Option.none, false⟩

/-- An empty registry. -/
def C9reg0 : TPProp.Registry :=
  ⟨[], [], [], Option.none, Option.none, false⟩

/-- The registry obtained from `C9reg0` by registering the grid
`Ts = [1,2]`, `Ps = [3,4]`, `properties = [[5,5],[6,6]]` without a name. -/
def C9reg1 : TPProp.Registry :=
  ⟨["Tabular data series #0"],
   [("Tabular data series #0", ⟨[1, 2], [3, 4], [[5, 5], [6, 6]]⟩)], [],
   Option.some "Tabular data series #0", Option.none, false⟩

/-- A registry whose only pressure-dependent method `"A"` is selected. -/
def C8reg : TPProp.Registry :=
  ⟨["A"], [], [], Option.some "A", Option.none, false⟩

/-- Candidate root list with exactly one root of non-negligible imaginary part
(`2 + 1j`) in which a second root (`1 + 1e-12j`) has a negligible but nonzero
imaginary part. -/
def C2Vs : List EOSQ.Cplx := [⟨1, 1/1000000000000⟩, ⟨2, 1⟩, ⟨3, 0⟩]

/-- Candidate root list with exactly one root of non-negligible imaginary part
and two exactly-real roots. -/
def C2VsW : List EOSQ.Cplx := [⟨1, 0⟩, ⟨2, 1⟩, ⟨3, 0⟩]

/-- A one-component Wilson state: `T = 300`, `x = [1]`, all coefficient
matrices zero. -/
noncomputable def C5state : WilsonM.State 1 :=
  ⟨300, fun _ => 1, fun _ _ => 0, fun _ _ => 0, fun _ _ => 0,
   fun _ _ => 0, fun _ _ => 0, fun _ _ => 0⟩

/-! # Theorems -/

/-! ### C1: the `PR.__init__` invalid-input guard can never fire -/

/-- C1: the spec requires `PR.__init__` to fail with an invalid-input error
when zero or three of {T, P, V} are supplied, but the guard
`not ([T and P] or [T and V] or [P and V])` tests singleton *lists*, which are
always truthy in Python, so it evaluates to `False` for every combination of
supplied arguments (including none at all) and the invalid-input error is never
raised.  The code contradicts its own error message
"Either T and P, or T and V, or P and V are required". -/
theorem C1_PR_init_guard_never_fires (T P V : Option ℚ) :
    EOSQ.PR_init_guard T P V = false := rfl

/-! ### C4: Wilson interaction matrix and excess Gibbs energy -/

/-- C4: for every Wilson model state, the interaction matrix satisfies
`Lambda_ij = exp(A_ij + B_ij/T + C_ij*ln T + D_ij*T + E_ij/T^2 + F_ij*T^2)`
for every ordered pair, and `GE = -R*T*sum_i x_i*ln(sum_j x_j*Lambda_ij)` with
`R = 8.314462618`. -/
theorem C4_wilson_lambdas_GE {N : ℕ} (s : WilsonM.State N) :
    (∀ i j, WilsonM.lambdas s i j
      = Real.exp (s.A i j + s.B i j/s.T + s.C i j*Real.log s.T + s.D i j*s.T
          + s.E i j/s.T^2 + s.F i j*s.T^2))
    ∧ WilsonM.GE s
        = -(R*s.T)*∑ i, s.xs i*Real.log (∑ j, s.xs j*WilsonM.lambdas s i j)
    ∧ R = 8.314462618 := by
  refine ⟨fun i j => ?_, ?_, rfl⟩
  · exact congrArg Real.exp (by ring)
  · unfold WilsonM.GE
    ring

/-! ### C6: the departure-property bundle of `set_derivs_from_phase` -/

/-- C6: for every real root processed by `set_derivs_from_phase`, the stored
departure properties satisfy
`H_dep = P*V - R*T + sqrt(2)*Re[atanh((V+b)*sqrt(2)/(2b))]*(T*da_alpha_dT - a_alpha)/(2b)`,
`V_dep = V - R*T/P`, `U_dep = H_dep - P*V_dep`, `G_dep = H_dep - T*S_dep`,
`A_dep = U_dep - T*S_dep`, `fugacity = P*exp(G_dep/(R*T))` and
`phi = fugacity/P`. -/
theorem C6_departure_bundle (T P V b a_alpha da_alpha_dT d2a_alpha_dT2 : ℝ) :
    (EOSR.set_derivs_from_phase T P V b a_alpha da_alpha_dT d2a_alpha_dT2).H_dep
        = P*V - R*T + Real.sqrt 2*EOSR.catanh_re ((V + b)*Real.sqrt 2/(2*b))
            *(T*da_alpha_dT - a_alpha)/(2*b)
    ∧ (EOSR.set_derivs_from_phase T P V b a_alpha da_alpha_dT d2a_alpha_dT2).V_dep
        = V - R*T/P
    ∧ (EOSR.set_derivs_from_phase T P V b a_alpha da_alpha_dT d2a_alpha_dT2).U_dep
        = (EOSR.set_derivs_from_phase T P V b a_alpha da_alpha_dT d2a_alpha_dT2).H_dep
          - P*(EOSR.set_derivs_from_phase T P V b a_alpha da_alpha_dT d2a_alpha_dT2).V_dep
    ∧ (EOSR.set_derivs_from_phase T P V b a_alpha da_alpha_dT d2a_alpha_dT2).G_dep
        = (EOSR.set_derivs_from_phase T P V b a_alpha da_alpha_dT d2a_alpha_dT2).H_dep
          - T*(EOSR.set_derivs_from_phase T P V b a_alpha da_alpha_dT d2a_alpha_dT2).S_dep
    ∧ (EOSR.set_derivs_from_phase T P V b a_alpha da_alpha_dT d2a_alpha_dT2).A_dep
        = (EOSR.set_derivs_from_phase T P V b a_alpha da_alpha_dT d2a_alpha_dT2).U_dep
          - T*(EOSR.set_derivs_from_phase T P V b a_alpha da_alpha_dT d2a_alpha_dT2).S_dep
    ∧ (EOSR.set_derivs_from_phase T P V b a_alpha da_alpha_dT d2a_alpha_dT2).fugacity
        = P*Real.exp
            ((EOSR.set_derivs_from_phase T P V b a_alpha da_alpha_dT d2a_alpha_dT2).G_dep
              /(R*T))
    ∧ (EOSR.set_derivs_from_phase T P V b a_alpha da_alpha_dT d2a_alpha_dT2).phi
        = (EOSR.set_derivs_from_phase T P V b a_alpha da_alpha_dT d2a_alpha_dT2).fugacity/P := by
  refine ⟨?_, rfl, rfl, rfl, rfl, rfl, rfl⟩
  show P*V - R*T
      + Real.sqrt 2*EOSR.catanh_re ((V + b)*Real.sqrt 2/b/2)*(da_alpha_dT*T - a_alpha)/b/2
    = P*V - R*T + Real.sqrt 2*EOSR.catanh_re ((V + b)*Real.sqrt 2/(2*b))
        *(T*da_alpha_dT - a_alpha)/(2*b)
  rw [show (V + b)*Real.sqrt 2/b/2 = (V + b)*Real.sqrt 2/(2*b) from by ring]
  ring

/-! ### C10: symmetry of the Wilson composition-derivative family -/

/-- C10: for every Wilson model state, the composition Hessian returned by
`d2GE_dxixjs` is symmetric, and the third composition derivative tensor
returned by `d3GE_dxixjxks` is invariant under every permutation of its three
indices (the five non-identity permutations are listed). -/
theorem C10_wilson_derivative_symmetry {N : ℕ} (s : WilsonM.State N) :
    (∀ k m, WilsonM.d2GE_dxixjs s k m = WilsonM.d2GE_dxixjs s m k)
    ∧ (∀ k m n, WilsonM.d3GE_dxixjxks s k m n = WilsonM.d3GE_dxixjxks s m k n
        ∧ WilsonM.d3GE_dxixjxks s k m n = WilsonM.d3GE_dxixjxks s k n m
        ∧ WilsonM.d3GE_dxixjxks s k m n = WilsonM.d3GE_dxixjxks s n m k
        ∧ WilsonM.d3GE_dxixjxks s k m n = WilsonM.d3GE_dxixjxks s m n k
        ∧ WilsonM.d3GE_dxixjxks s k m n = WilsonM.d3GE_dxixjxks s n k m) := by
  have h2 : ∀ k m, WilsonM.d2GE_dxixjs s k m = WilsonM.d2GE_dxixjs s m k := by
    intro k m
    unfold WilsonM.d2GE_dxixjs
    have hs1 : (∑ i, s.xs i*WilsonM.lambdas s i k*WilsonM.lambdas s i m
            /(WilsonM.xj_Lambda_ijs s i*WilsonM.xj_Lambda_ijs s i))
        = ∑ i, s.xs i*WilsonM.lambdas s i m*WilsonM.lambdas s i k
            /(WilsonM.xj_Lambda_ijs s i*WilsonM.xj_Lambda_ijs s i) :=
      Finset.sum_congr rfl fun i _ => by ring
    rw [hs1]
    ring
  have h3 : ∀ k m n, WilsonM.d3GE_dxixjxks s k m n = WilsonM.d3GE_dxixjxks s m k n := by
    intro k m n
    unfold WilsonM.d3GE_dxixjxks
    have hs1 : (∑ i, (2*s.xs i*WilsonM.lambdas s i k*WilsonM.lambdas s i m*WilsonM.lambdas s i n)
            *(WilsonM.xj_Lambda_ijs_inv s i*WilsonM.xj_Lambda_ijs_inv s i
              *WilsonM.xj_Lambda_ijs_inv s i))
        = ∑ i, (2*s.xs i*WilsonM.lambdas s i m*WilsonM.lambdas s i k*WilsonM.lambdas s i n)
            *(WilsonM.xj_Lambda_ijs_inv s i*WilsonM.xj_Lambda_ijs_inv s i
              *WilsonM.xj_Lambda_ijs_inv s i) :=
      Finset.sum_congr rfl fun i _ => by ring
    rw [hs1]
    ring
  have h3' : ∀ k m n, WilsonM.d3GE_dxixjxks s k m n = WilsonM.d3GE_dxixjxks s k n m := by
    intro k m n
    unfold WilsonM.d3GE_dxixjxks
    have hs1 : (∑ i, (2*s.xs i*WilsonM.lambdas s i k*WilsonM.lambdas s i m*WilsonM.lambdas s i n)
            *(WilsonM.xj_Lambda_ijs_inv s i*WilsonM.xj_Lambda_ijs_inv s i
              *WilsonM.xj_Lambda_ijs_inv s i))
        = ∑ i, (2*s.xs i*WilsonM.lambdas s i k*WilsonM.lambdas s i n*WilsonM.lambdas s i m)
            *(WilsonM.xj_Lambda_ijs_inv s i*WilsonM.xj_Lambda_ijs_inv s i
              *WilsonM.xj_Lambda_ijs_inv s i) :=
      Finset.sum_congr rfl fun i _ => by ring
    rw [hs1]
    ring
  refine ⟨h2, fun k m n => ⟨h3 k m n, h3' k m n, ?_, ?_, ?_⟩⟩
  · rw [h3' k m n, h3 k n m]
    exact h3' n k m
  · rw [h3 k m n]
    exact h3' m k n
  · rw [h3' k m n]
    exact h3 k n m

/-! ### C7: `TP_dependent_property` validity and policy handling -/

/-- C7 counterexample: with the raise-on-calculation-error policy disabled, a
valid method whose evaluation succeeds but whose value fails
`test_property_validity` makes `TP_dependent_property` return no value
*without raising*; the claim's unconditional "an invalid-result error is
raised if that check fails" is therefore false at this input. -/
theorem C7_counterexample :
    TPProp.TP_dependent_property C7hooks C7reg 300 100000 = Except.ok Option.none
    ∧ TPProp.isError (TPProp.TP_dependent_property C7hooks C7reg 300 100000) = false := by
  exact ⟨rfl, rfl⟩

/-- C7 (amended): with a selected pressure-dependent method, a valid method
whose evaluation succeeds has its value checked by `test_property_validity`; on
success the value is returned, and on a failed check the call raises the
invalid-result error *when the raise-on-calculation-error policy flag is set*
and returns no value otherwise; an invalid method or a faulting evaluation
likewise raises a descriptive error or returns no value according to the
flag. -/
theorem C7_TP_dependent_property_policy (h : TPProp.Hooks) (r : TPProp.Registry)
    (T P : ℚ) (m : String) (hm : r.method_P = Option.some m) :
    (∀ x, h.test_method_validity_P T P m = true → h.calculate_P T P m = Except.ok x →
      h.test_property_validity x = true →
      TPProp.TP_dependent_property h r T P = Except.ok (Option.some x))
    ∧ (∀ x, h.test_method_validity_P T P m = true → h.calculate_P T P m = Except.ok x →
      h.test_property_validity x = false →
      TPProp.TP_dependent_property h r T P
        = if r.RAISE_PROPERTY_CALCULATION_ERROR then Except.error "computed an invalid value"
          else Except.ok Option.none)
    ∧ (h.test_method_validity_P T P m = false →
      TPProp.TP_dependent_property h r T P
        = if r.RAISE_PROPERTY_CALCULATION_ERROR then Except.error "not valid at T and P"
          else Except.ok Option.none)
    ∧ (∀ e, h.test_method_validity_P T P m = true → h.calculate_P T P m = Except.error e →
      TPProp.TP_dependent_property h r T P
        = if r.RAISE_PROPERTY_CALCULATION_ERROR then Except.error "Failed to evaluate method"
          else Except.ok Option.none) := by
  refine ⟨?_, ?_, ?_, ?_⟩
  · intro x hv hc ht
    unfold TPProp.TP_dependent_property
    rw [hm]
    simp [hv, hc, ht]
  · intro x hv hc ht
    unfold TPProp.TP_dependent_property
    rw [hm]
    simp [hv, hc, ht]
  · intro hv
    unfold TPProp.TP_dependent_property
    rw [hm]
    simp [hv]
  · intro e hv hc
    unfold TPProp.TP_dependent_property
    rw [hm]
    simp [hv, hc]

/-- C7 witness: the amended theorem applied to a concrete registry with method
`"M"` selected, always-valid hooks and an accepted value 5. -/
theorem C7_witness :
    TPProp.TP_dependent_property C7hooksOK C7reg 300 100000 = Except.ok (Option.some 5) :=
  (C7_TP_dependent_property_policy C7hooksOK C7reg 300 100000 "M" rfl).1 5 rfl rfl rfl

/-! ### C8: the `method_P` setter -/

/-- C8: assigning a method name not present in `all_methods_P` to `method_P`
fails with the invalid-input error (before any state is mutated), and every
successful assignment clears the cached `(T, P)` evaluation, stores the
assigned method, and leaves `all_methods_P` and `tabular_data_P` unchanged. -/
theorem C8_method_P_setter (r : TPProp.Registry) :
    (∀ s : String, r.all_methods_P.contains s = false →
      TPProp.method_P_set r (Option.some s)
        = Except.error "The given methods is not available for this chemical")
    ∧ (∀ m r', TPProp.method_P_set r m = Except.ok r' →
      r'.TP_cached = Option.none ∧ r'.method_P = m
        ∧ r'.all_methods_P = r.all_methods_P ∧ r'.tabular_data_P = r.tabular_data_P) := by
  constructor
  · intro s hs
    unfold TPProp.method_P_set
    dsimp only
    rw [hs]
    rfl
  · intro m r' hr
    cases m with
    | none =>
        unfold TPProp.method_P_set at hr
        cases hr
        exact ⟨rfl, rfl, rfl, rfl⟩
    | some s =>
        unfold TPProp.method_P_set at hr
        dsimp only at hr
        cases hcs : r.all_methods_P.contains s with
        | true =>
            rw [hcs] at hr
            cases hr
            exact ⟨rfl, rfl, rfl, rfl⟩
        | false =>
            rw [hcs] at hr
            exact Except.noConfusion hr

/-- C8 witness: assigning the absent method `"B"` to a registry whose only
method is `"A"` raises the invalid-input error. -/
theorem C8_witness :
    TPProp.method_P_set C8reg (Option.some "B")
      = Except.error "The given methods is not available for this chemical" :=
  (C8_method_P_setter C8reg).1 "B" (by decide)

/-! ### C9: `add_tabular_data_P` -/

/-- Looking up the key just stored by the dictionary update returns the stored
entry. -/
theorem assocLookup_assocSet (l : List (String × TPProp.TabEntry)) (k : String)
    (v : TPProp.TabEntry) :
    TPProp.assocLookup (TPProp.assocSet l k v) k = Option.some v := by
  induction l with
  | nil => simp [TPProp.assocSet, TPProp.assocLookup]
  | cons hd tl ih =>
      obtain ⟨k', v'⟩ := hd
      by_cases hk : k' = k
      · simp [TPProp.assocSet, TPProp.assocLookup, hk]
      · simp [TPProp.assocSet, TPProp.assocLookup, hk, ih]

/-- A set insertion (`all_methods_P.add(name)`) makes the name a member. -/
theorem contains_setAdd (l : List String) (k : String) :
    (if l.contains k then l else k :: l).contains k = true := by
  by_cases hc : l.contains k = true
  · rw [if_pos hc]
    exact hc
  · rw [if_neg hc]
    simp [List.contains_cons]

/-- C9: `add_tabular_data_P` fails with an invalid-input error whenever `Ts`
or `Ps` is not strictly increasing; with `check_properties` enabled it fails
with the invalid-input error when any property value fails
`test_property_validity`; and on success the data set is stored under the
given name (auto-named `"Tabular data series #n"` with `n` the count of
stored low-pressure tabular series when no name is given), the name is added
to `all_methods_P`, and it becomes the selected pressure-dependent method. -/
theorem C9_add_tabular_data_P (h : TPProp.Hooks) (r : TPProp.Registry)
    (Ts Ps : List ℚ) (properties : List (List ℚ)) (name : Option String) (check : Bool) :
    (TPProp.strictIncr Ts = false ∨ TPProp.strictIncr Ps = false →
      ∃ msg, TPProp.add_tabular_data_P h r Ts Ps properties name check = Except.error msg)
    ∧ (check = true → (∃ p ∈ properties.flatten, h.test_property_validity p = false) →
      TPProp.add_tabular_data_P h r Ts Ps properties name check
        = Except.error "One of the properties specified are not feasible")
    ∧ (∀ r', TPProp.add_tabular_data_P h r Ts Ps properties name check = Except.ok r' →
      TPProp.assocLookup r'.tabular_data_P (TPProp.tabName r name)
          = Option.some ⟨Ts, Ps, properties⟩
        ∧ r'.all_methods_P.contains (TPProp.tabName r name) = true
        ∧ r'.method_P = Option.some (TPProp.tabName r name)
        ∧ r'.TP_cached = Option.none)
    ∧ (name = Option.none →
      TPProp.tabName r name = "Tabular data series #" ++ toString r.tabular_data.length) := by
  refine ⟨?_, ?_, ?_, ?_⟩
  · intro hbad
    unfold TPProp.add_tabular_data_P
    by_cases hA : (check && properties.flatten.any fun p => !(h.test_property_validity p)) = true
    · exact ⟨_, by rw [if_pos hA]⟩
    · rw [if_neg hA]
      by_cases hTs : (!(TPProp.strictIncr Ts)) = true
      · exact ⟨_, by rw [if_pos hTs]⟩
      · rw [if_neg hTs]
        by_cases hPs : (!(TPProp.strictIncr Ps)) = true
        · exact ⟨_, by rw [if_pos hPs]⟩
        · exfalso
          rcases hbad with hb | hb
          · rw [hb] at hTs
            exact hTs rfl
          · rw [hb] at hPs
            exact hPs rfl
  · intro hc hex
    obtain ⟨p, hp, hpv⟩ := hex
    have hany : (properties.flatten.any fun p => !(h.test_property_validity p)) = true :=
      List.any_eq_true.mpr ⟨p, hp, by rw [hpv]; rfl⟩
    unfold TPProp.add_tabular_data_P
    rw [if_pos (by rw [hc, hany]; rfl)]
  · intro r' hr
    unfold TPProp.add_tabular_data_P at hr
    by_cases hA : (check && properties.flatten.any fun p => !(h.test_property_validity p)) = true
    · rw [if_pos hA] at hr
      exact Except.noConfusion hr
    · rw [if_neg hA] at hr
      by_cases hTs : (!(TPProp.strictIncr Ts)) = true
      · rw [if_pos hTs] at hr
        exact Except.noConfusion hr
      · rw [if_neg hTs] at hr
        by_cases hPs : (!(TPProp.strictIncr Ps)) = true
        · rw [if_pos hPs] at hr
          exact Except.noConfusion hr
        · rw [if_neg hPs] at hr
          unfold TPProp.method_P_set at hr
          dsimp only at hr
          rw [contains_setAdd] at hr
          rw [if_neg (by simp)] at hr
          cases hr
          exact ⟨assocLookup_assocSet _ _ _, contains_setAdd _ _, rfl, rfl⟩
  · intro hn
    rw [hn]
    rfl

/-- C9 witness: registering a small strictly-increasing grid on an empty
registry succeeds, is auto-named `"Tabular data series #0"`, is stored and
becomes the selected method. -/
theorem C9_witness :
    TPProp.add_tabular_data_P C7hooksOK C9reg0 [1, 2] [3, 4] [[5, 5], [6, 6]]
        Option.none true = Except.ok C9reg1
    ∧ TPProp.assocLookup C9reg1.tabular_data_P (TPProp.tabName C9reg0 Option.none)
        = Option.some ⟨[1, 2], [3, 4], [[5, 5], [6, 6]]⟩
    ∧ C9reg1.method_P = Option.some (TPProp.tabName C9reg0 Option.none) := by
  have hadd : TPProp.add_tabular_data_P C7hooksOK C9reg0 [1, 2] [3, 4] [[5, 5], [6, 6]]
      Option.none true = Except.ok C9reg1 := by rfl
  have hfields := (C9_add_tabular_data_P C7hooksOK C9reg0 [1, 2] [3, 4] [[5, 5], [6, 6]]
    Option.none true).2.2.1 C9reg1 hadd
  exact ⟨hadd, hfields.1, hfields.2.2.1⟩

/-! ### C2: root classification in `set_from_PT` -/

/-- C2 counterexample: at the root list `[1 + 1e-12j, 2 + 1j, 3]` exactly one
root has imaginary part exceeding `1e-9` in magnitude, so by the claim the two
remaining roots (real parts 1 and 3) should be stored with the smaller, 1, as
the liquid root and 3 as the vapor root.  The code filters by *exactly zero*
imaginary part, drops the `1 + 1e-12j` root, and stores `Vl = Vg = 3`. -/
theorem C2_counterexample :
    (C2Vs.filter fun i => decide ((1:ℚ)/1000000000 < |i.im|)).length = 1
    ∧ EOSQ.set_from_PT 300 1000000 C2Vs 1 2 3 4
        = Except.ok (EOSQ.SetPTOutcome.twoPhase 3 3)
    ∧ EOSQ.set_from_PT 300 1000000 C2Vs 1 2 3 4
        ≠ Except.ok (EOSQ.SetPTOutcome.twoPhase 1 3) := by
  have hlen : (C2Vs.filter fun i => decide ((1:ℚ)/1000000000 < |i.im|)).length = 1 := by
    simp only [C2Vs, List.filter_cons, List.filter_nil, decide_eq_true_eq]
    rw [abs_of_pos (by norm_num : (0:ℚ) < 1/1000000000000)]
    norm_num
  have hf : C2Vs.filter (fun i => decide (i.im = 0)) = [⟨3, 0⟩] := by
    simp only [C2Vs, List.filter_cons, List.filter_nil, decide_eq_true_eq]
    norm_num
  have heq : EOSQ.set_from_PT 300 1000000 C2Vs 1 2 3 4
      = Except.ok (EOSQ.SetPTOutcome.twoPhase 3 3) := by
    unfold EOSQ.set_from_PT
    rw [hlen, hf]
    rfl
  refine ⟨hlen, heq, ?_⟩
  intro hc
  rw [heq] at hc
  simp only [Except.ok.injEq, EOSQ.SetPTOutcome.twoPhase.injEq] at hc
  norm_num at hc

/-- C2 (amended): letting `n` be the number of roots whose imaginary part
exceeds `1e-9` in magnitude: if `n = 0` the call fails with the invalid-state
error and no phase attributes are set; if `n = 2` and some root has imaginary
part *exactly zero*, the first such root is selected and stored under the
phase given by the PIP criterion; if `n = 1` and the roots with imaginary part
*exactly zero* are exactly two, they are stored with the smaller as the liquid
root and the larger as the vapor root, each with a derivative bundle.  (The
code filters stored roots by exact-zero imaginary part, not by the `1e-9`
threshold used for counting.) -/
theorem C2_set_from_PT_amended (T P : ℚ) (Vs : List EOSQ.Cplx) (b a_alpha da d2 : ℚ) :
    ((Vs.filter fun i => decide ((1:ℚ)/1000000000 < |i.im|)).length = 0 →
      EOSQ.set_from_PT T P Vs b a_alpha da d2 = Except.error "Three roots not possible")
    ∧ (∀ v rest, (Vs.filter fun i => decide ((1:ℚ)/1000000000 < |i.im|)).length = 2 →
        Vs.filter (fun i => decide (i.im = 0)) = v :: rest →
        EOSQ.set_from_PT T P Vs b a_alpha da d2
          = Except.ok (EOSQ.SetPTOutcome.single
              (EOSQ.set_derivs_phase T v.re b a_alpha da) v.re)
        ∧ EOSQ.set_derivs_phase T v.re b a_alpha da
            = EOSQ.phase_identification_parameter_phase
                (EOSQ.phase_identification_parameter v.re (EOSQ.dP_dT v.re b da)
                  (EOSQ.dP_dV T v.re b a_alpha) (EOSQ.d2P_dV2 T v.re b a_alpha)
                  (EOSQ.d2P_dTdV v.re b da)))
    ∧ (∀ v w, (Vs.filter fun i => decide ((1:ℚ)/1000000000 < |i.im|)).length = 1 →
        Vs.filter (fun i => decide (i.im = 0)) = [v, w] →
        EOSQ.set_from_PT T P Vs b a_alpha da d2
          = Except.ok (EOSQ.SetPTOutcome.twoPhase (min v.re w.re) (max v.re w.re))) := by
  refine ⟨?_, ?_, ?_⟩
  · intro h0
    unfold EOSQ.set_from_PT
    rw [h0]
    rfl
  · intro v rest h2 hf
    constructor
    · unfold EOSQ.set_from_PT
      rw [h2, hf]
      rfl
    · rfl
  · intro v w h1 hf
    unfold EOSQ.set_from_PT
    rw [h1, hf]
    show Except.ok (EOSQ.SetPTOutcome.twoPhase (EOSQ.minRe v [w]) (EOSQ.maxRe v [w]))
      = Except.ok (EOSQ.SetPTOutcome.twoPhase (min v.re w.re) (max v.re w.re))
    have hmin : EOSQ.minRe v [w] = min v.re w.re := by
      unfold EOSQ.minRe
      simp only [List.foldl]
      rcases lt_or_le w.re v.re with hlt | hle
      · rw [if_pos hlt, min_eq_right hlt.le]
      · rw [if_neg (not_lt.mpr hle), min_eq_left hle]
    have hmax : EOSQ.maxRe v [w] = max v.re w.re := by
      unfold EOSQ.maxRe
      simp only [List.foldl]
      rcases lt_or_le v.re w.re with hlt | hle
      · rw [if_pos hlt, max_eq_right hlt.le]
      · rw [if_neg (not_lt.mpr hle), max_eq_left hle]
    rw [hmin, hmax]

/-- C2 witness: at the root list `[1, 2 + 1j, 3]` (one non-negligible
imaginary root, two exactly-real roots) the amended theorem stores the smaller
real root 1 as the liquid root and the larger root 3 as the vapor root. -/
theorem C2_witness :
    EOSQ.set_from_PT 300 1000000 C2VsW 1 2 3 4
      = Except.ok (EOSQ.SetPTOutcome.twoPhase 1 3) := by
  have hlen : (C2VsW.filter fun i => decide ((1:ℚ)/1000000000 < |i.im|)).length = 1 := by
    simp only [C2VsW, List.filter_cons, List.filter_nil, decide_eq_true_eq]
    norm_num
  have hf : C2VsW.filter (fun i => decide (i.im = 0)) = [⟨1, 0⟩, ⟨3, 0⟩] := by
    simp only [C2VsW, List.filter_cons, List.filter_nil, decide_eq_true_eq]
    norm_num
  have h := (C2_set_from_PT_amended 300 1000000 C2VsW 1 2 3 4).2.2 ⟨1, 0⟩ ⟨3, 0⟩ hlen hf
  rw [h]
  norm_num [min_def, max_def]

/-! ### C5: Wilson activity coefficients and their consistency with GE -/

/-- C5: for every Wilson model state the activity coefficients satisfy
`gamma_i = exp(1 - sum_j Lambda_ji*x_j/(sum_k x_k*Lambda_jk))*(1/sum_j x_j*Lambda_ij)`,
and for every composition summing to one (with positive row sums, as holds for
any state since each `Lambda_ij` is an exponential and `x_i > 0`; here taken as
a hypothesis), `R*T*sum_i x_i*ln(gamma_i)` equals the value returned by `GE`. -/
theorem C5_wilson_gammas_GE {N : ℕ} (s : WilsonM.State N)
    (hx : ∑ i, s.xs i = 1) (hS : ∀ i, 0 < WilsonM.xj_Lambda_ijs s i) :
    (∀ i, WilsonM.gammas s i
      = Real.exp (1 - ∑ j, WilsonM.lambdas s j i*s.xs j/(∑ k, s.xs k*WilsonM.lambdas s j k))
        *(1/∑ j, s.xs j*WilsonM.lambdas s i j))
    ∧ R*s.T*(∑ i, s.xs i*Real.log (WilsonM.gammas s i)) = WilsonM.GE s := by
  have hSne : ∀ i, WilsonM.xj_Lambda_ijs s i ≠ 0 := fun i => (hS i).ne'
  constructor
  · intro i
    unfold WilsonM.gammas WilsonM.xj_Lambda_ijs_inv WilsonM.xj_Lambda_ijs
    have harg : (∑ j, WilsonM.lambdas s j i*(s.xs j*(1/∑ k, s.xs k*WilsonM.lambdas s j k)))
        = ∑ j, WilsonM.lambdas s j i*s.xs j/(∑ k, s.xs k*WilsonM.lambdas s j k) :=
      Finset.sum_congr rfl fun j _ => by ring
    rw [harg]
  · have hlog : ∀ i, Real.log (WilsonM.gammas s i)
        = (1 - ∑ j, WilsonM.lambdas s j i*(s.xs j*WilsonM.xj_Lambda_ijs_inv s j))
          - Real.log (WilsonM.xj_Lambda_ijs s i) := by
      intro i
      unfold WilsonM.gammas
      rw [Real.log_mul (Real.exp_ne_zero _)
        (by unfold WilsonM.xj_Lambda_ijs_inv; exact one_div_ne_zero (hSne i))]
      rw [Real.log_exp]
      have hinv : Real.log (WilsonM.xj_Lambda_ijs_inv s i)
          = -Real.log (WilsonM.xj_Lambda_ijs s i) := by
        unfold WilsonM.xj_Lambda_ijs_inv
        rw [one_div, Real.log_inv]
      rw [hinv]
      ring
    have hmain : (∑ i, s.xs i*Real.log (WilsonM.gammas s i))
        = (∑ i, s.xs i*(1 - ∑ j, WilsonM.lambdas s j i*(s.xs j*WilsonM.xj_Lambda_ijs_inv s j)))
          - ∑ i, s.xs i*Real.log (WilsonM.xj_Lambda_ijs s i) := by
      rw [← Finset.sum_sub_distrib]
      exact Finset.sum_congr rfl fun i _ => by rw [hlog i]; ring
    have hzero : (∑ i, s.xs i*(1 - ∑ j, WilsonM.lambdas s j i
        *(s.xs j*WilsonM.xj_Lambda_ijs_inv s j))) = 0 := by
      have expand : (∑ i, s.xs i*(1 - ∑ j, WilsonM.lambdas s j i
            *(s.xs j*WilsonM.xj_Lambda_ijs_inv s j)))
          = (∑ i, s.xs i) - ∑ i, ∑ j, s.xs i*(WilsonM.lambdas s j i
              *(s.xs j*WilsonM.xj_Lambda_ijs_inv s j)) := by
        rw [← Finset.sum_sub_distrib]
        exact Finset.sum_congr rfl fun i _ => by rw [mul_sub, mul_one, Finset.mul_sum]
      rw [expand, hx, Finset.sum_comm]
      have hj : ∀ j, (∑ i, s.xs i*(WilsonM.lambdas s j i
            *(s.xs j*WilsonM.xj_Lambda_ijs_inv s j))) = s.xs j := by
        intro j
        have hpull : (∑ i, s.xs i*(WilsonM.lambdas s j i
              *(s.xs j*WilsonM.xj_Lambda_ijs_inv s j)))
            = (s.xs j*WilsonM.xj_Lambda_ijs_inv s j)*∑ i, s.xs i*WilsonM.lambdas s j i := by
          rw [Finset.mul_sum]
          exact Finset.sum_congr rfl fun i _ => by ring
        rw [hpull]
        show (s.xs j*WilsonM.xj_Lambda_ijs_inv s j)*WilsonM.xj_Lambda_ijs s j = s.xs j
        unfold WilsonM.xj_Lambda_ijs_inv
        rw [one_div, mul_assoc, inv_mul_cancel₀ (hSne j), mul_one]
      rw [Finset.sum_congr rfl fun j _ => hj j, hx]
      ring
    rw [hmain, hzero]
    unfold WilsonM.GE WilsonM.xj_Lambda_ijs
    ring

/-- C5 witness: the consistency relation instantiated at the one-component
state with `T = 300`, `x = [1]` and zero coefficient matrices. -/
theorem C5_witness :
    (∑ i, C5state.xs i = 1)
    ∧ R*C5state.T*(∑ i, C5state.xs i*Real.log (WilsonM.gammas C5state i))
        = WilsonM.GE C5state := by
  have hx : (∑ i, C5state.xs i) = 1 := by
    simp [C5state]
  have hS : ∀ i, 0 < WilsonM.xj_Lambda_ijs C5state i := by
    intro i
    unfold WilsonM.xj_Lambda_ijs
    rw [Fin.sum_univ_one]
    show 0 < C5state.xs 0 * WilsonM.lambdas C5state i 0
    unfold WilsonM.lambdas C5state
    positivity
  exact ⟨hx, (C5_wilson_gammas_GE C5state hx hS).2⟩

/-! ### C3: helper lemmas for the Cardano closed-form roots -/

/-- The principal complex square root squares back to its argument. -/
theorem csqrt_sq (z : ℂ) : EOSR.csqrt z^2 = z := by
  have h := Complex.cpow_nat_inv_pow z (by norm_num : (2:ℕ) ≠ 0)
  unfold EOSR.csqrt
  rw [show ((1:ℂ)/2) = (((2:ℕ):ℂ))⁻¹ by norm_num]
  exact h

/-- The principal complex cube root cubes back to its argument. -/
theorem cbrt_cube (z : ℂ) : EOSR.cbrt z^3 = z := by
  have h := Complex.cpow_nat_inv_pow z (by norm_num : (3:ℕ) ≠ 0)
  unfold EOSR.cbrt
  rw [show ((1:ℂ)/3) = (((3:ℕ):ℂ))⁻¹ by norm_num]
  exact h

/-- `sqrt(3)*1j` squares to `-3`. -/
theorem SQ3I_sq : EOSR.SQ3I^2 = -3 := by
  unfold EOSR.SQ3I
  rw [mul_pow, Complex.I_sq, csqrt_sq]
  ring

/-- Cardano kernel identity: multiplied through by `27*t^3`, the monic cubic
`x^3 + B*x^2 + C1*x + D1` equals the product of the three cleared root
factors, given the resolvent relation for `t^3` and `u` a primitive cube root
of unity. -/
theorem cardano_key (x B C1 D1 t u : ℂ) (hu : u^2 + u + 1 = 0)
    (hcube : (t^3)^2 - (2*B^3 - 9*B*C1 + 27*D1)*t^3 + (B^2 - 3*C1)^3 = 0) :
    27*t^3*(x^3 + B*x^2 + C1*x + D1)
      = (3*t*x + (B^2 - 3*C1) + t^2 + B*t)
        *(3*t*x + (B^2 - 3*C1)*u^2 + u*t^2 + B*t)
        *(3*t*x + (B^2 - 3*C1)*u^4 + u^2*t^2 + B*t) := by
  linear_combination (
      t^6 - (1)*t^6*u + (3)*C1*t^4*u^3 - (9)*C1^2*t^2*u^4 - (27)*C1^3 + (27)*C1^3*u -
      (27)*C1^3*u^3 + (27)*C1^3*u^4 - (1)*B*t^5*u + (9)*B*C1*t^3 - (6)*B*C1*t^3*u +
      (3)*B*C1*t^3*u^2 + (3)*B*C1*t^3*u^3 - (9)*B*C1^2*t*u^2 + (9)*B*C1^2*t*u^3 -
      (9)*B*C1^2*t*u^4 - (1)*B^2*t^4 - (1)*B^2*t^4*u^3 + (3)*B^2*C1*t^2 - (3)*B^2*C1*t^2*u +
      (3)*B^2*C1*t^2*u^2 + (6)*B^2*C1*t^2*u^4 + (27)*B^2*C1^2 - (27)*B^2*C1^2*u +
      (27)*B^2*C1^2*u^3 - (27)*B^2*C1^2*u^4 - (3)*B^3*t^3 + (2)*B^3*t^3*u - (1)*B^3*t^3*u^2 -
      (1)*B^3*t^3*u^3 + (6)*B^3*C1*t*u^2 - (6)*B^3*C1*t*u^3 + (6)*B^3*C1*t*u^4 - (1)*B^4*t^2 +
      B^4*t^2*u - (1)*B^4*t^2*u^2 - (1)*B^4*t^2*u^4 - (9)*B^4*C1 + (9)*B^4*C1*u - (9)*B^4*C1*u^3
      + (9)*B^4*C1*u^4 - (1)*B^5*t*u^2 + B^5*t*u^3 - (1)*B^5*t*u^4 + B^6 - (1)*B^6*u + B^6*u^3 -
      (1)*B^6*u^4 - (3)*x*t^5*u + (27)*x*C1*t^3 - (18)*x*C1*t^3*u + (9)*x*C1*t^3*u^2 +
      (9)*x*C1*t^3*u^3 - (27)*x*C1^2*t*u^2 + (27)*x*C1^2*t*u^3 - (27)*x*C1^2*t*u^4 - (6)*x*B*t^4
      + (18)*x*B*C1*t^2 - (18)*x*B*C1*t^2*u + (18)*x*B*C1*t^2*u^2 - (9)*x*B^2*t^3 +
      (6)*x*B^2*t^3*u - (3)*x*B^2*t^3*u^2 - (3)*x*B^2*t^3*u^3 + (18)*x*B^2*C1*t*u^2 -
      (18)*x*B^2*C1*t*u^3 + (18)*x*B^2*C1*t*u^4 - (6)*x*B^3*t^2 + (6)*x*B^3*t^2*u -
      (6)*x*B^3*t^2*u^2 - (3)*x*B^4*t*u^2 + (3)*x*B^4*t*u^3 - (3)*x*B^4*t*u^4 - (9)*x^2*t^4 +
      (27)*x^2*C1*t^2 - (27)*x^2*C1*t^2*u + (27)*x^2*C1*t^2*u^2 - (9)*x^2*B^2*t^2 +
      (9)*x^2*B^2*t^2*u - (9)*x^2*B^2*t^2*u^2
      )*hu - hcube

/-- A Cardano root subterm, cleared of its denominator, for a cube root of
unity `w`. -/
theorem cardano_root_clear (x B C1 t w : ℂ) (ht : t ≠ 0) (hw0 : w ≠ 0)
    (hw3 : w^3 = 1) :
    x - (-(B^2 - 3*C1)/(3*w*t) - w*t/3 - B/3)
      = (3*t*x + (B^2 - 3*C1)*w^2 + w*t^2 + B*t)/(3*t) := by
  have h3t : (3:ℂ)*t ≠ 0 := mul_ne_zero three_ne_zero ht
  have h3wt : (3:ℂ)*w*t ≠ 0 := mul_ne_zero (mul_ne_zero three_ne_zero hw0) ht
  have key : -(B^2 - 3*C1)/(3*w*t) = -((B^2 - 3*C1)*w^2)/(3*t) := by
    rw [div_eq_div_iff h3wt h3t]
    linear_combination 3*(B^2 - 3*C1)*t*hw3
  rw [key]
  field_simp
  ring

/-- Cardano factorization: with `t` a nonzero cube-root subterm satisfying the
resolvent relation and `u` a primitive cube root of unity, the monic cubic
factors through the three closed-form roots. -/
theorem cardano_factor (B C1 D1 t u x : ℂ) (ht : t ≠ 0) (hu : u^2 + u + 1 = 0)
    (hcube : (t^3)^2 - (2*B^3 - 9*B*C1 + 27*D1)*t^3 + (B^2 - 3*C1)^3 = 0) :
    x^3 + B*x^2 + C1*x + D1
      = (x - (-(B^2 - 3*C1)/(3*1*t) - 1*t/3 - B/3))
        *(x - (-(B^2 - 3*C1)/(3*u*t) - u*t/3 - B/3))
        *(x - (-(B^2 - 3*C1)/(3*u^2*t) - u^2*t/3 - B/3)) := by
  have hu0 : u ≠ 0 := by
    intro h
    rw [h] at hu
    norm_num at hu
  have hu3 : u^3 = 1 := by linear_combination (u - 1)*hu
  have hu23 : (u^2)^3 = 1 := by
    rw [show (u^2)^3 = (u^3)^2 from by ring, hu3]
    norm_num
  rw [cardano_root_clear x B C1 t 1 ht one_ne_zero (by norm_num),
      cardano_root_clear x B C1 t u ht hu0 hu3,
      cardano_root_clear x B C1 t (u^2) ht (pow_ne_zero 2 hu0) hu23]
  rw [div_mul_div_comm, div_mul_div_comm]
  have h3t : (3:ℂ)*t ≠ 0 := mul_ne_zero three_ne_zero ht
  rw [eq_div_iff (mul_ne_zero (mul_ne_zero h3t h3t) h3t)]
  linear_combination cardano_key x B C1 D1 t u hu hcube

/-- The resolvent quadratic satisfied by the cube of the shared cube-root
subterm of `all_V`. -/
theorem allV_C_resolvent (T P b a_alpha : ℂ) :
    ((EOSR.allV_C T P b a_alpha)^3)^2
      - (EOSR.allV_S T P b a_alpha)*(EOSR.allV_C T P b a_alpha)^3
      + (EOSR.allV_Q T P b a_alpha)^3 = 0 := by
  unfold EOSR.allV_C
  rw [cbrt_cube]
  linear_combination ((1:ℂ)/4)
    *csqrt_sq (-4*(EOSR.allV_Q T P b a_alpha)^3 + (EOSR.allV_S T P b a_alpha)^2)

/-- `allV_Q` in terms of the monic-cubic coefficients. -/
theorem allV_Q_eq (T P b a_alpha : ℂ) :
    EOSR.allV_Q T P b a_alpha
      = ((P*b - EOSR.Rc*T)/P)^2 - 3*((-3*P*b^2 - 2*EOSR.Rc*T*b + a_alpha)/P) := by
  unfold EOSR.allV_Q
  ring

/-- `allV_S` in terms of the monic-cubic coefficients. -/
theorem allV_S_eq (T P b a_alpha : ℂ) :
    EOSR.allV_S T P b a_alpha
      = 2*((P*b - EOSR.Rc*T)/P)^3
        - 9*((P*b - EOSR.Rc*T)/P)*((-3*P*b^2 - 2*EOSR.Rc*T*b + a_alpha)/P)
        + 27*((P*b^3 + EOSR.Rc*T*b^2 - b*a_alpha)/P) := by
  unfold EOSR.allV_S
  ring

/-- Every root of the EOS cubic
`P*x^3 + (P*b - R*T)*x^2 + (-3*P*b^2 - 2*R*T*b + a_alpha)*x + (P*b^3 + R*T*b^2 - b*a_alpha) = 0`
is among the three values returned by `all_V`, provided `P` and the cube-root
subterm are nonzero. -/
theorem allV_mem_of_root (T P b a_alpha x : ℂ) (hP : P ≠ 0)
    (ht : EOSR.allV_C T P b a_alpha ≠ 0)
    (hroot : P*x^3 + (P*b - EOSR.Rc*T)*x^2 + (-3*P*b^2 - 2*EOSR.Rc*T*b + a_alpha)*x
      + (P*b^3 + EOSR.Rc*T*b^2 - b*a_alpha) = 0) :
    x ∈ EOSR.all_V T P b a_alpha := by
  have hu : (-1/2 - EOSR.SQ3I/2)^2 + (-1/2 - EOSR.SQ3I/2) + 1 = 0 := by
    linear_combination ((1:ℂ)/4)*SQ3I_sq
  have hu2 : (-1/2 + EOSR.SQ3I/2 : ℂ) = (-1/2 - EOSR.SQ3I/2)^2 := by
    linear_combination (-(1:ℂ)/4)*SQ3I_sq
  have hmonic : x^3 + ((P*b - EOSR.Rc*T)/P)*x^2
      + ((-3*P*b^2 - 2*EOSR.Rc*T*b + a_alpha)/P)*x
      + ((P*b^3 + EOSR.Rc*T*b^2 - b*a_alpha)/P) = 0 := by
    field_simp
    linear_combination hroot
  have hres := allV_C_resolvent T P b a_alpha
  rw [allV_Q_eq, allV_S_eq] at hres
  have hfac := cardano_factor ((P*b - EOSR.Rc*T)/P)
      ((-3*P*b^2 - 2*EOSR.Rc*T*b + a_alpha)/P)
      ((P*b^3 + EOSR.Rc*T*b^2 - b*a_alpha)/P)
      (EOSR.allV_C T P b a_alpha) (-1/2 - EOSR.SQ3I/2) x ht hu hres
  rw [hmonic] at hfac
  have hroot1 : EOSR.allV_root T P b a_alpha 1
      = -(((P*b - EOSR.Rc*T)/P)^2 - 3*((-3*P*b^2 - 2*EOSR.Rc*T*b + a_alpha)/P))
          /(3*1*EOSR.allV_C T P b a_alpha) - 1*EOSR.allV_C T P b a_alpha/3
          - ((P*b - EOSR.Rc*T)/P)/3 := by
    unfold EOSR.allV_root
    rw [allV_Q_eq]
    ring
  have hroot2 : EOSR.allV_root T P b a_alpha (-1/2 - EOSR.SQ3I/2)
      = -(((P*b - EOSR.Rc*T)/P)^2 - 3*((-3*P*b^2 - 2*EOSR.Rc*T*b + a_alpha)/P))
          /(3*(-1/2 - EOSR.SQ3I/2)*EOSR.allV_C T P b a_alpha)
          - (-1/2 - EOSR.SQ3I/2)*EOSR.allV_C T P b a_alpha/3
          - ((P*b - EOSR.Rc*T)/P)/3 := by
    unfold EOSR.allV_root
    rw [allV_Q_eq]
    ring
  have hroot3 : EOSR.allV_root T P b a_alpha (-1/2 + EOSR.SQ3I/2)
      = -(((P*b - EOSR.Rc*T)/P)^2 - 3*((-3*P*b^2 - 2*EOSR.Rc*T*b + a_alpha)/P))
          /(3*(-1/2 - EOSR.SQ3I/2)^2*EOSR.allV_C T P b a_alpha)
          - (-1/2 - EOSR.SQ3I/2)^2*EOSR.allV_C T P b a_alpha/3
          - ((P*b - EOSR.Rc*T)/P)/3 := by
    unfold EOSR.allV_root
    rw [allV_Q_eq, hu2]
    ring
  unfold EOSR.all_V
  rcases mul_eq_zero.mp hfac.symm with h12 | h3
  · rcases mul_eq_zero.mp h12 with h1 | h2
    · rw [show x = EOSR.allV_root T P b a_alpha 1 from by
        rw [hroot1]; exact sub_eq_zero.mp h1]
      exact List.Mem.head _
    · rw [show x = EOSR.allV_root T P b a_alpha (-1/2 - EOSR.SQ3I/2) from by
        rw [hroot2]; exact sub_eq_zero.mp h2]
      exact List.Mem.tail _ (List.Mem.head _)
  · rw [show x = EOSR.allV_root T P b a_alpha (-1/2 + EOSR.SQ3I/2) from by
      rw [hroot3]; exact sub_eq_zero.mp h3]
    exact List.Mem.tail _ (List.Mem.tail _ (List.Mem.head _))

/-- The pressure produced by the `(T, V)` construction path satisfies the EOS
cubic in `V`. -/
theorem P_from_TV_cubic (T V b a_alpha : ℝ) (hVb : V - b ≠ 0)
    (hD2 : V*(V + b) + b*(V - b) ≠ 0) :
    (EOSR.P_from_TV T V b a_alpha)*V^3
      + ((EOSR.P_from_TV T V b a_alpha)*b - R*T)*V^2
      + (-3*(EOSR.P_from_TV T V b a_alpha)*b^2 - 2*R*T*b + a_alpha)*V
      + ((EOSR.P_from_TV T V b a_alpha)*b^3 + R*T*b^2 - b*a_alpha) = 0 := by
  unfold EOSR.P_from_TV
  field_simp
  ring

/-- Any real volume satisfying the EOS cubic at `(T, P)` has its pressure
recovered exactly by the explicit `(T, V)` pressure solution. -/
theorem P_from_TV_of_root (T V b a_alpha P : ℝ) (hVb : V - b ≠ 0)
    (hD2 : V*(V + b) + b*(V - b) ≠ 0)
    (hroot : P*V^3 + (P*b - R*T)*V^2 + (-3*P*b^2 - 2*R*T*b + a_alpha)*V
      + (P*b^3 + R*T*b^2 - b*a_alpha) = 0) :
    EOSR.P_from_TV T V b a_alpha = P := by
  unfold EOSR.P_from_TV
  rw [div_sub_div _ _ hVb hD2, div_eq_iff (mul_ne_zero hVb hD2)]
  linear_combination (-1 : ℝ)*hroot

/-- Coercion of the real EOS cubic to the complex cubic used by `all_V`. -/
theorem cubic_cast (T V b a_alpha P : ℝ)
    (h : P*V^3 + (P*b - R*T)*V^2 + (-3*P*b^2 - 2*R*T*b + a_alpha)*V
      + (P*b^3 + R*T*b^2 - b*a_alpha) = 0) :
    (P:ℂ)*(V:ℂ)^3 + ((P:ℂ)*(b:ℂ) - EOSR.Rc*(T:ℂ))*(V:ℂ)^2
      + (-3*(P:ℂ)*(b:ℂ)^2 - 2*EOSR.Rc*(T:ℂ)*(b:ℂ) + (a_alpha:ℂ))*(V:ℂ)
      + ((P:ℂ)*(b:ℂ)^3 + EOSR.Rc*(T:ℂ)*(b:ℂ)^2 - (b:ℂ)*(a_alpha:ℂ)) = 0 := by
  unfold EOSR.Rc
  exact_mod_cast h

/-- The closed-form temperature solution, simplified: the factor `Q1` of the
numerator and denominator is the square of `TPV_W` and cancels. -/
theorem T_from_PV_closed (Tc a b kappa P V : ℝ)
    (hW : EOSR.TPV_W Tc a b kappa V ≠ 0) :
    EOSR.T_from_PV Tc a b kappa P V
      = Tc*((V - b)*EOSR.TPV_Q2 Tc a b kappa P V
          - 2*a*kappa*(kappa + 1)*Real.sqrt (EOSR.TPV_arg Tc a b kappa P V))
        /(EOSR.TPV_W Tc a b kappa V)^2 := by
  have hW' : (R*Tc*V^2 + 2*R*Tc*V*b - R*Tc*b^2 - V*a*kappa^2 + a*b*kappa^2) ≠ 0 := hW
  have hQ1 : (R^2*Tc^2*V^4 + 4*R^2*Tc^2*V^3*b + 2*R^2*Tc^2*V^2*b^2 - 4*R^2*Tc^2*V*b^3
      + R^2*Tc^2*b^4 - 2*R*Tc*V^3*a*kappa^2 - 2*R*Tc*V^2*a*b*kappa^2
      + 6*R*Tc*V*a*b^2*kappa^2 - 2*R*Tc*a*b^3*kappa^2 + V^2*a^2*kappa^4
      - 2*V*a^2*b*kappa^4 + a^2*b^2*kappa^4)
      = (R*Tc*V^2 + 2*R*Tc*V*b - R*Tc*b^2 - V*a*kappa^2 + a*b*kappa^2)^2 := by
    ring
  unfold EOSR.T_from_PV EOSR.TPV_Q2 EOSR.TPV_W EOSR.TPV_arg
  rw [div_eq_div_iff
    (by
      rw [show ((R*Tc*V^2 + 2*R*Tc*V*b - R*Tc*b^2 - V*a*kappa^2 + a*b*kappa^2)^2
          *(R^2*Tc^2*V^4 + 4*R^2*Tc^2*V^3*b + 2*R^2*Tc^2*V^2*b^2 - 4*R^2*Tc^2*V*b^3
            + R^2*Tc^2*b^4 - 2*R*Tc*V^3*a*kappa^2 - 2*R*Tc*V^2*a*b*kappa^2
            + 6*R*Tc*V*a*b^2*kappa^2 - 2*R*Tc*a*b^3*kappa^2 + V^2*a^2*kappa^4
            - 2*V*a^2*b*kappa^4 + a^2*b^2*kappa^4))
        = ((R*Tc*V^2 + 2*R*Tc*V*b - R*Tc*b^2 - V*a*kappa^2 + a*b*kappa^2)^2
          *(R*Tc*V^2 + 2*R*Tc*V*b - R*Tc*b^2 - V*a*kappa^2 + a*b*kappa^2)^2) from by
          rw [hQ1]]
      exact mul_ne_zero (pow_ne_zero 2 hW') (pow_ne_zero 2 hW'))
    (pow_ne_zero 2 hW')]
  ring

/-- The closed-form temperature is `Tc` times the square of the quadratic root
`TPV_s`. -/
theorem T_from_PV_sq (Tc a b kappa P V : ℝ) (hW : EOSR.TPV_W Tc a b kappa V ≠ 0)
    (hVb : V - b ≠ 0) (harg : 0 ≤ EOSR.TPV_arg Tc a b kappa P V) :
    EOSR.T_from_PV Tc a b kappa P V = Tc*(EOSR.TPV_s Tc a b kappa P V)^2 := by
  rw [T_from_PV_closed Tc a b kappa P V hW]
  unfold EOSR.TPV_s
  rw [div_pow, sub_sq, Real.sq_sqrt harg]
  rw [mul_div_assoc']
  rw [div_eq_div_iff (pow_ne_zero 2 hW) (pow_ne_zero 2 (mul_ne_zero hW hVb))]
  unfold EOSR.TPV_Q2 EOSR.TPV_W EOSR.TPV_arg
  ring

/-- The reduced-temperature square root of the closed-form temperature is
`TPV_s` itself (the nonnegative branch). -/
theorem TPV_s_sqrt (Tc a b kappa P V : ℝ) (hW : EOSR.TPV_W Tc a b kappa V ≠ 0)
    (hVb : V - b ≠ 0) (harg : 0 ≤ EOSR.TPV_arg Tc a b kappa P V) (hTc : 0 < Tc)
    (hs : 0 ≤ EOSR.TPV_s Tc a b kappa P V) :
    Real.sqrt (EOSR.T_from_PV Tc a b kappa P V/Tc) = EOSR.TPV_s Tc a b kappa P V := by
  rw [T_from_PV_sq Tc a b kappa P V hW hVb harg]
  rw [mul_comm, mul_div_assoc, div_self hTc.ne', mul_one]
  exact Real.sqrt_sq hs

/-- `TPV_s` satisfies the reduced-temperature quadratic of the PR equation of
state at pressure `P` and volume `V`. -/
theorem TPV_s_quadratic (Tc a b kappa P V : ℝ) (hW : EOSR.TPV_W Tc a b kappa V ≠ 0)
    (hVb : V - b ≠ 0) (harg : 0 ≤ EOSR.TPV_arg Tc a b kappa P V) :
    EOSR.TPV_W Tc a b kappa V*(EOSR.TPV_s Tc a b kappa P V)^2
      + 2*a*kappa*(1 + kappa)*(V - b)*EOSR.TPV_s Tc a b kappa P V
      - (a*(1 + kappa)^2 + P*(V*(V + b) + b*(V - b)))*(V - b) = 0 := by
  unfold EOSR.TPV_s
  rw [div_pow, sub_sq, Real.sq_sqrt harg]
  field_simp
  unfold EOSR.TPV_arg EOSR.TPV_W
  ring

/-- Any `sigma` satisfying the reduced-temperature quadratic recovers the
pressure from the explicit EOS form. -/
theorem PR_quadratic_root (Tc a b kappa P sigma V : ℝ) (hVb : V - b ≠ 0)
    (hD2 : V*(V + b) + b*(V - b) ≠ 0)
    (hq : EOSR.TPV_W Tc a b kappa V*sigma^2 + 2*a*kappa*(1 + kappa)*(V - b)*sigma
      - (a*(1 + kappa)^2 + P*(V*(V + b) + b*(V - b)))*(V - b) = 0) :
    R*(Tc*sigma^2)/(V - b) - a*(1 + kappa*(1 - sigma))^2/(V*(V + b) + b*(V - b)) = P := by
  have hq' := hq
  unfold EOSR.TPV_W at hq'
  rw [div_sub_div _ _ hVb hD2, div_eq_iff (mul_ne_zero hVb hD2)]
  linear_combination hq'

/-- `(P, V)` round trip: the pressure evaluated from the closed-form
temperature solution (with `a_alpha` recomputed at that temperature) recovers
the given `P`. -/
theorem P_from_TV_T_from_PV (Tc a b kappa P V : ℝ)
    (hW : EOSR.TPV_W Tc a b kappa V ≠ 0) (hVb : V - b ≠ 0)
    (hD2 : V*(V + b) + b*(V - b) ≠ 0) (hTc : 0 < Tc)
    (harg : 0 ≤ EOSR.TPV_arg Tc a b kappa P V)
    (hs : 0 ≤ EOSR.TPV_s Tc a b kappa P V) :
    EOSR.P_from_TV (EOSR.T_from_PV Tc a b kappa P V) V b
      (a*(1 + kappa*(1 - Real.sqrt (EOSR.T_from_PV Tc a b kappa P V/Tc)))^2) = P := by
  unfold EOSR.P_from_TV
  rw [TPV_s_sqrt Tc a b kappa P V hW hVb harg hTc hs]
  rw [T_from_PV_sq Tc a b kappa P V hW hVb harg]
  exact PR_quadratic_root Tc a b kappa P (EOSR.TPV_s Tc a b kappa P V) V hVb hD2
    (TPV_s_quadratic Tc a b kappa P V hW hVb harg)

/-- The principal complex square root of a nonnegative real is the real square
root. -/
theorem csqrt_ofReal (d : ℝ) (hd : 0 ≤ d) :
    EOSR.csqrt (d:ℂ) = ((Real.sqrt d : ℝ):ℂ) := by
  unfold EOSR.csqrt
  rw [Real.sqrt_eq_rpow, Complex.ofReal_cpow hd]
  norm_num

/-- `allV_Q` at real arguments is the coercion of its real form. -/
theorem allV_Q_cast (T P b a_alpha : ℝ) :
    EOSR.allV_Q (T:ℂ) (P:ℂ) (b:ℂ) (a_alpha:ℂ)
      = ((EOSR.allV_Q_real T P b a_alpha : ℝ):ℂ) := by
  unfold EOSR.allV_Q EOSR.allV_Q_real EOSR.Rc
  push_cast
  ring

/-- `allV_S` at real arguments is the coercion of its real form. -/
theorem allV_S_cast (T P b a_alpha : ℝ) :
    EOSR.allV_S (T:ℂ) (P:ℂ) (b:ℂ) (a_alpha:ℂ)
      = ((EOSR.allV_S_real T P b a_alpha : ℝ):ℂ) := by
  unfold EOSR.allV_S EOSR.allV_S_real EOSR.Rc
  push_cast
  ring

/-- The cube-root subterm of `all_V` is nonzero at real arguments whose
discriminant is nonnegative and whose `sqrt(d) + S` is positive. -/
theorem allV_C_ofReal_ne_zero (T P b a_alpha : ℝ)
    (hd : 0 ≤ -4*(EOSR.allV_Q_real T P b a_alpha)^3 + (EOSR.allV_S_real T P b a_alpha)^2)
    (hpos : 0 < Real.sqrt (-4*(EOSR.allV_Q_real T P b a_alpha)^3
        + (EOSR.allV_S_real T P b a_alpha)^2) + EOSR.allV_S_real T P b a_alpha) :
    EOSR.allV_C (T:ℂ) (P:ℂ) (b:ℂ) (a_alpha:ℂ) ≠ 0 := by
  unfold EOSR.allV_C EOSR.cbrt
  rw [Ne, Complex.cpow_eq_zero_iff]
  rintro ⟨h0, -⟩
  rw [allV_Q_cast, allV_S_cast] at h0
  rw [show (-4*((EOSR.allV_Q_real T P b a_alpha : ℝ):ℂ)^3
      + ((EOSR.allV_S_real T P b a_alpha : ℝ):ℂ)^2)
      = ((-4*(EOSR.allV_Q_real T P b a_alpha)^3
          + (EOSR.allV_S_real T P b a_alpha)^2 : ℝ):ℂ) from by push_cast; ring] at h0
  rw [csqrt_ofReal _ hd] at h0
  have h0' : ((Real.sqrt (-4*(EOSR.allV_Q_real T P b a_alpha)^3
      + (EOSR.allV_S_real T P b a_alpha)^2)/2
      + EOSR.allV_S_real T P b a_alpha/2 : ℝ):ℂ) = 0 := by
    push_cast
    exact h0
  have h0r := Complex.ofReal_eq_zero.mp h0'
  linarith

/-- C3: the round-trip property of the three two-of-three PR construction
paths, over exact real arithmetic.  (1) From `(T, V)`: the pressure produced
by the explicit `(T, V)` solution makes `V` one of the three volume roots that
`all_V` returns on reconstruction from the resulting `(T, P)` pair — the same
volume root is reproduced exactly.  (2) From `(T, P)`: any real volume root of
the EOS cubic at `(T, P)` has its pressure recovered exactly by the `(T, V)`
path.  (3) From `(P, V)`: the closed-form temperature solution, with `a_alpha`
recomputed at that temperature, reproduces `P` exactly through the explicit
pressure form (hence, by (1), reconstruction from the resulting `(T, P)` again
yields the volume root `V`).  The hypotheses are the nondegeneracy conditions:
`V` is not the covolume, the attraction denominator and the produced pressure
and the cube-root subterm are nonzero, `Tc` is positive, and the closed-form
square root sits on its nonnegative branch. -/
theorem C3_PR_roundtrip (Tc Pc omega T V P : ℝ)
    (hVb : V - EOSR.bPR Tc Pc ≠ 0)
    (hD2 : V*(V + EOSR.bPR Tc Pc) + EOSR.bPR Tc Pc*(V - EOSR.bPR Tc Pc) ≠ 0)
    (hP1 : EOSR.P_from_TV T V (EOSR.bPR Tc Pc) (EOSR.a_alphaPR Tc Pc omega T) ≠ 0)
    (ht1 : EOSR.allV_C (T:ℂ)
        ((EOSR.P_from_TV T V (EOSR.bPR Tc Pc) (EOSR.a_alphaPR Tc Pc omega T) : ℝ):ℂ)
        ((EOSR.bPR Tc Pc : ℝ):ℂ) ((EOSR.a_alphaPR Tc Pc omega T : ℝ):ℂ) ≠ 0)
    (hroot : P*V^3 + (P*EOSR.bPR Tc Pc - R*T)*V^2
      + (-3*P*(EOSR.bPR Tc Pc)^2 - 2*R*T*EOSR.bPR Tc Pc + EOSR.a_alphaPR Tc Pc omega T)*V
      + (P*(EOSR.bPR Tc Pc)^3 + R*T*(EOSR.bPR Tc Pc)^2
          - EOSR.bPR Tc Pc*EOSR.a_alphaPR Tc Pc omega T) = 0)
    (hW : EOSR.TPV_W Tc (EOSR.aPR Tc Pc) (EOSR.bPR Tc Pc) (EOSR.kappaPR omega) V ≠ 0)
    (hTc : 0 < Tc)
    (harg : 0 ≤ EOSR.TPV_arg Tc (EOSR.aPR Tc Pc) (EOSR.bPR Tc Pc) (EOSR.kappaPR omega) P V)
    (hs : 0 ≤ EOSR.TPV_s Tc (EOSR.aPR Tc Pc) (EOSR.bPR Tc Pc) (EOSR.kappaPR omega) P V) :
    ((V:ℂ) ∈ EOSR.all_V (T:ℂ)
        ((EOSR.P_from_TV T V (EOSR.bPR Tc Pc) (EOSR.a_alphaPR Tc Pc omega T) : ℝ):ℂ)
        ((EOSR.bPR Tc Pc : ℝ):ℂ) ((EOSR.a_alphaPR Tc Pc omega T : ℝ):ℂ))
    ∧ EOSR.P_from_TV T V (EOSR.bPR Tc Pc) (EOSR.a_alphaPR Tc Pc omega T) = P
    ∧ EOSR.P_from_TV
        (EOSR.T_from_PV Tc (EOSR.aPR Tc Pc) (EOSR.bPR Tc Pc) (EOSR.kappaPR omega) P V) V
        (EOSR.bPR Tc Pc)
        (EOSR.a_alphaPR Tc Pc omega
          (EOSR.T_from_PV Tc (EOSR.aPR Tc Pc) (EOSR.bPR Tc Pc) (EOSR.kappaPR omega) P V))
      = P := by
  refine ⟨?_, ?_, ?_⟩
  · apply allV_mem_of_root _ _ _ _ _ (Complex.ofReal_ne_zero.mpr hP1) ht1
    exact cubic_cast T V (EOSR.bPR Tc Pc) (EOSR.a_alphaPR Tc Pc omega T) _
      (P_from_TV_cubic T V (EOSR.bPR Tc Pc) (EOSR.a_alphaPR Tc Pc omega T) hVb hD2)
  · exact P_from_TV_of_root T V (EOSR.bPR Tc Pc) (EOSR.a_alphaPR Tc Pc omega T) P hVb hD2 hroot
  · have h := P_from_TV_T_from_PV Tc (EOSR.aPR Tc Pc) (EOSR.bPR Tc Pc) (EOSR.kappaPR omega)
      P V hW hVb hD2 hTc harg hs
    unfold EOSR.a_alphaPR
    exact h

/-- C3 witness: at `Tc = 507.6`, `Pc = 3025000`, `omega = 0.2975`, `T = Tc`,
`V = 0.0003` (so that `sqrt(T/Tc) = 1` and every quantity is rational), the
round-trip theorem applies: the produced pressure puts `V` among the
reconstructed `all_V` roots, the explicit pressure form recovers it from the
cubic, and the `(P, V)` temperature solution reproduces the pressure. -/
theorem C3_witness :
    (((0.0003:ℝ):ℂ) ∈ EOSR.all_V ((507.6:ℝ):ℂ)
        ((EOSR.P_from_TV 507.6 0.0003 (EOSR.bPR 507.6 3025000) (EOSR.a_alphaPR 507.6 3025000 0.2975 507.6) : ℝ):ℂ) ((EOSR.bPR 507.6 3025000 : ℝ):ℂ) ((EOSR.a_alphaPR 507.6 3025000 0.2975 507.6 : ℝ):ℂ))
    ∧ EOSR.P_from_TV 507.6 0.0003 (EOSR.bPR 507.6 3025000) (EOSR.a_alphaPR 507.6 3025000 0.2975 507.6) = EOSR.P_from_TV 507.6 0.0003 (EOSR.bPR 507.6 3025000) (EOSR.a_alphaPR 507.6 3025000 0.2975 507.6)
    ∧ EOSR.P_from_TV (EOSR.T_from_PV 507.6 (EOSR.aPR 507.6 3025000) (EOSR.bPR 507.6 3025000) (EOSR.kappaPR 0.2975) (EOSR.P_from_TV 507.6 0.0003 (EOSR.bPR 507.6 3025000) (EOSR.a_alphaPR 507.6 3025000 0.2975 507.6)) 0.0003) 0.0003 (EOSR.bPR 507.6 3025000)
        (EOSR.a_alphaPR 507.6 3025000 0.2975 (EOSR.T_from_PV 507.6 (EOSR.aPR 507.6 3025000) (EOSR.bPR 507.6 3025000) (EOSR.kappaPR 0.2975) (EOSR.P_from_TV 507.6 0.0003 (EOSR.bPR 507.6 3025000) (EOSR.a_alphaPR 507.6 3025000 0.2975 507.6)) 0.0003)) = EOSR.P_from_TV 507.6 0.0003 (EOSR.bPR 507.6 3025000) (EOSR.a_alphaPR 507.6 3025000 0.2975 507.6) := by
  have haal : EOSR.a_alphaPR 507.6 3025000 0.2975 507.6 = EOSR.aPR 507.6 3025000 := by
    unfold EOSR.a_alphaPR
    rw [div_self (by norm_num : (507.6:ℝ) ≠ 0), Real.sqrt_one]
    ring
  have hVb : (0.0003:ℝ) - EOSR.bPR 507.6 3025000 ≠ 0 := by
    norm_num [EOSR.bPR, EOSR.c2, R]
  have hD2 : (0.0003:ℝ)*(0.0003 + EOSR.bPR 507.6 3025000) + EOSR.bPR 507.6 3025000*(0.0003 - EOSR.bPR 507.6 3025000) ≠ 0 := by
    norm_num [EOSR.bPR, EOSR.c2, R]
  have hP1 : EOSR.P_from_TV 507.6 0.0003 (EOSR.bPR 507.6 3025000) (EOSR.a_alphaPR 507.6 3025000 0.2975 507.6) ≠ 0 := by
    rw [haal]
    norm_num [EOSR.P_from_TV, EOSR.a_alphaPR, EOSR.aPR, EOSR.bPR, EOSR.kappaPR, EOSR.c1, EOSR.c2, R]
  have hd : (0:ℝ) ≤ -4*(EOSR.allV_Q_real 507.6 (EOSR.P_from_TV 507.6 0.0003 (EOSR.bPR 507.6 3025000) (EOSR.a_alphaPR 507.6 3025000 0.2975 507.6)) (EOSR.bPR 507.6 3025000) (EOSR.a_alphaPR 507.6 3025000 0.2975 507.6))^3
      + (EOSR.allV_S_real 507.6 (EOSR.P_from_TV 507.6 0.0003 (EOSR.bPR 507.6 3025000) (EOSR.a_alphaPR 507.6 3025000 0.2975 507.6)) (EOSR.bPR 507.6 3025000) (EOSR.a_alphaPR 507.6 3025000 0.2975 507.6))^2 := by
    rw [haal]
    norm_num [EOSR.allV_Q_real, EOSR.allV_S_real, EOSR.P_from_TV, EOSR.a_alphaPR, EOSR.aPR, EOSR.bPR, EOSR.kappaPR, EOSR.c1, EOSR.c2, R]
  have hSpos : (0:ℝ) < EOSR.allV_S_real 507.6 (EOSR.P_from_TV 507.6 0.0003 (EOSR.bPR 507.6 3025000) (EOSR.a_alphaPR 507.6 3025000 0.2975 507.6)) (EOSR.bPR 507.6 3025000) (EOSR.a_alphaPR 507.6 3025000 0.2975 507.6) := by
    rw [haal]
    norm_num [EOSR.allV_S_real, EOSR.P_from_TV, EOSR.a_alphaPR, EOSR.aPR, EOSR.bPR, EOSR.kappaPR, EOSR.c1, EOSR.c2, R]
  have ht1 : EOSR.allV_C ((507.6:ℝ):ℂ) ((EOSR.P_from_TV 507.6 0.0003 (EOSR.bPR 507.6 3025000) (EOSR.a_alphaPR 507.6 3025000 0.2975 507.6) : ℝ):ℂ) ((EOSR.bPR 507.6 3025000 : ℝ):ℂ)
      ((EOSR.a_alphaPR 507.6 3025000 0.2975 507.6 : ℝ):ℂ) ≠ 0 := by
    apply allV_C_ofReal_ne_zero _ _ _ _ hd
    have := Real.sqrt_nonneg (-4*(EOSR.allV_Q_real 507.6 (EOSR.P_from_TV 507.6 0.0003 (EOSR.bPR 507.6 3025000) (EOSR.a_alphaPR 507.6 3025000 0.2975 507.6)) (EOSR.bPR 507.6 3025000) (EOSR.a_alphaPR 507.6 3025000 0.2975 507.6))^3
      + (EOSR.allV_S_real 507.6 (EOSR.P_from_TV 507.6 0.0003 (EOSR.bPR 507.6 3025000) (EOSR.a_alphaPR 507.6 3025000 0.2975 507.6)) (EOSR.bPR 507.6 3025000) (EOSR.a_alphaPR 507.6 3025000 0.2975 507.6))^2)
    linarith
  have hroot := P_from_TV_cubic 507.6 0.0003 (EOSR.bPR 507.6 3025000) (EOSR.a_alphaPR 507.6 3025000 0.2975 507.6) hVb hD2
  have hW : EOSR.TPV_W 507.6 (EOSR.aPR 507.6 3025000) (EOSR.bPR 507.6 3025000) (EOSR.kappaPR 0.2975) 0.0003 ≠ 0 := by
    norm_num [EOSR.TPV_W, EOSR.aPR, EOSR.bPR, EOSR.kappaPR, EOSR.c1, EOSR.c2, R]
  have hkey : EOSR.TPV_arg 507.6 (EOSR.aPR 507.6 3025000) (EOSR.bPR 507.6 3025000) (EOSR.kappaPR 0.2975) (EOSR.P_from_TV 507.6 0.0003 (EOSR.bPR 507.6 3025000) (EOSR.a_alphaPR 507.6 3025000 0.2975 507.6)) 0.0003
      = (EOSR.aPR 507.6 3025000*(EOSR.kappaPR 0.2975)*(1 + EOSR.kappaPR 0.2975)*(0.0003 - EOSR.bPR 507.6 3025000)^2
        + EOSR.TPV_W 507.6 (EOSR.aPR 507.6 3025000) (EOSR.bPR 507.6 3025000) (EOSR.kappaPR 0.2975) 0.0003*(0.0003 - EOSR.bPR 507.6 3025000))^2 := by
    rw [haal]
    norm_num [EOSR.TPV_arg, EOSR.TPV_W, EOSR.P_from_TV, EOSR.a_alphaPR, EOSR.aPR, EOSR.bPR, EOSR.kappaPR, EOSR.c1, EOSR.c2, R]
  have hMW : (0:ℝ) ≤ EOSR.aPR 507.6 3025000*(EOSR.kappaPR 0.2975)*(1 + EOSR.kappaPR 0.2975)*(0.0003 - EOSR.bPR 507.6 3025000)^2
      + EOSR.TPV_W 507.6 (EOSR.aPR 507.6 3025000) (EOSR.bPR 507.6 3025000) (EOSR.kappaPR 0.2975) 0.0003*(0.0003 - EOSR.bPR 507.6 3025000) := by
    norm_num [EOSR.TPV_W, EOSR.aPR, EOSR.bPR, EOSR.kappaPR, EOSR.c1, EOSR.c2, R]
  have harg : (0:ℝ) ≤ EOSR.TPV_arg 507.6 (EOSR.aPR 507.6 3025000) (EOSR.bPR 507.6 3025000) (EOSR.kappaPR 0.2975) (EOSR.P_from_TV 507.6 0.0003 (EOSR.bPR 507.6 3025000) (EOSR.a_alphaPR 507.6 3025000 0.2975 507.6)) 0.0003 := by
    rw [hkey]
    positivity
  have hsqrt : Real.sqrt (EOSR.TPV_arg 507.6 (EOSR.aPR 507.6 3025000) (EOSR.bPR 507.6 3025000) (EOSR.kappaPR 0.2975) (EOSR.P_from_TV 507.6 0.0003 (EOSR.bPR 507.6 3025000) (EOSR.a_alphaPR 507.6 3025000 0.2975 507.6)) 0.0003)
      = EOSR.aPR 507.6 3025000*(EOSR.kappaPR 0.2975)*(1 + EOSR.kappaPR 0.2975)*(0.0003 - EOSR.bPR 507.6 3025000)^2
        + EOSR.TPV_W 507.6 (EOSR.aPR 507.6 3025000) (EOSR.bPR 507.6 3025000) (EOSR.kappaPR 0.2975) 0.0003*(0.0003 - EOSR.bPR 507.6 3025000) := by
    rw [hkey]
    exact Real.sqrt_sq hMW
  have hs : (0:ℝ) ≤ EOSR.TPV_s 507.6 (EOSR.aPR 507.6 3025000) (EOSR.bPR 507.6 3025000) (EOSR.kappaPR 0.2975) (EOSR.P_from_TV 507.6 0.0003 (EOSR.bPR 507.6 3025000) (EOSR.a_alphaPR 507.6 3025000 0.2975 507.6)) 0.0003 := by
    unfold EOSR.TPV_s
    rw [hsqrt]
    norm_num [EOSR.TPV_W, EOSR.aPR, EOSR.bPR, EOSR.kappaPR, EOSR.c1, EOSR.c2, R]
  have hmain := C3_PR_roundtrip 507.6 3025000 0.2975 507.6 0.0003 (EOSR.P_from_TV 507.6 0.0003 (EOSR.bPR 507.6 3025000) (EOSR.a_alphaPR 507.6 3025000 0.2975 507.6))
    hVb hD2 hP1 ht1 hroot hW (by norm_num) harg hs
  exact hmain

end Thermo
